import Mathlib

/-! Transform math, the Model entity and the scene driver of the OpenGL demo.

A shallow embedding of `transformations.cc`, `model.cc` and `draw_scene.cc`.

* C++ `float` is read as a scalar of a field `F`; the statements about the
  mathematical constant `π` and about `sin`/`cos` are made at `F = ℝ`, so they
  speak of exact real arithmetic and say nothing about rounding.
* `Eigen::Vector3f`, `Eigen::Vector4f` and `Eigen::Matrix4f` are `Fin n → F` and
  `Matrix (Fin 4) (Fin 4) F`; `operator*` on them is the matrix product.
* The functions of the C math library that Eigen calls (`sin`, `cos`, `sqrt`)
  are passed in a record, so that every definition stays executable.
* OpenGL calls are recorded as traces of `GlCall` and `RenderCall` values; the
  objects that exist on the OpenGL side are a `GlState` of names, and the choice
  of new names is a `GlDriver`.
* A pointer that may be null is an `Option`; undefined behaviour is the result
  `none`.
-/

namespace wvu

/-! ## Eigen vocabulary -/

/-- The type `Eigen::Vector3f`. -/
abbrev Vector3 (F : Type) := Fin 3 → F

/-- The type `Eigen::Vector4f`. -/
abbrev Vector4 (F : Type) := Fin 4 → F

/-- The type `Eigen::Matrix3f`. -/
abbrev Matrix3 (F : Type) := Matrix (Fin 3) (Fin 3) F

/-- The type `Eigen::Matrix4f`. -/
abbrev Matrix4 (F : Type) := Matrix (Fin 4) (Fin 4) F

/-- The functions `std::sin`, `std::cos` and `std::sqrt` on the scalar type. -/
structure MathFns (F : Type) where
  sin : F → F
  cos : F → F
  sqrt : F → F

/-- Eigen `v.homogeneous()`: the vector with a trailing `1` appended. -/
def homogeneous {F : Type} [Field F] (v : Vector3 F) : Vector4 F :=
  ![v 0, v 1, v 2, 1]

/-- Eigen `v.squaredNorm()`. -/
def squaredNorm {F : Type} [Field F] (v : Vector3 F) : F :=
  v 0 * v 0 + v 1 * v 1 + v 2 * v 2

/-- Eigen `v.norm()`: the square root of the squared norm. -/
def norm {F : Type} [Field F] (fns : MathFns F) (v : Vector3 F) : F :=
  fns.sqrt (squaredNorm v)

/-- Eigen `v.normalized()` (Eigen 3.3 and later): `v / sqrt(z)` when the squared
norm `z` is positive, and `v` itself otherwise. -/
def normalized {F : Type} [LinearOrderedField F] (fns : MathFns F) (v : Vector3 F) :
    Vector3 F :=
  let z := squaredNorm v
  if z > 0 then fun i => v i / fns.sqrt z else v

/-- Eigen `AngleAxisf(angle, axis).matrix()`, i.e. `AngleAxis::toRotationMatrix`:
the axis is used as stored, it is not normalised. -/
def angleAxisMatrix {F : Type} [Field F] (fns : MathFns F) (angle : F) (axis : Vector3 F) :
    Matrix3 F :=
  let sin_axis : Vector3 F := fun i => fns.sin angle * axis i
  let c := fns.cos angle
  let cos1_axis : Vector3 F := fun i => (1 - c) * axis i
  let tmp01 := cos1_axis 0 * axis 1
  let tmp02 := cos1_axis 0 * axis 2
  let tmp12 := cos1_axis 1 * axis 2
  !![cos1_axis 0 * axis 0 + c, tmp01 - sin_axis 2, tmp02 + sin_axis 1;
     tmp01 + sin_axis 2, cos1_axis 1 * axis 1 + c, tmp12 - sin_axis 0;
     tmp02 - sin_axis 1, tmp12 + sin_axis 0, cos1_axis 2 * axis 2 + c]

/-- Eigen `m.block(0, 0, 3, 3) = b`: overwrite the upper-left 3x3 block. -/
def setBlock3 {F : Type} (m : Matrix4 F) (b : Matrix3 F) : Matrix4 F :=
  !![b 0 0, b 0 1, b 0 2, m 0 3;
     b 1 0, b 1 1, b 1 2, m 1 3;
     b 2 0, b 2 1, b 2 2, m 2 3;
     m 3 0, m 3 1, m 3 2, m 3 3]

/-- Eigen `m(i, j) = x`: overwrite one coefficient. -/
def setCoeff {F : Type} (m : Matrix4 F) (i j : Fin 4) (x : F) : Matrix4 F :=
  Matrix.of fun a b => if a = i ∧ b = j then x else m a b

/-! ## transformations.cc -/

/-- Source `ComputeTranslationMatrix`: the identity with column 3 overwritten by
`offset.homogeneous()`. -/
def ComputeTranslationMatrix {F : Type} [Field F] (offset : Vector3 F) : Matrix4 F :=
  let translation_matrix : Matrix4 F := 1
  Matrix.updateColumn translation_matrix 3 (homogeneous offset)

/-- Source `ComputeRotationMatrix`: the identity with its upper-left block
overwritten by the matrix of `AngleAxisf(angle_in_radians, rotation_axis)`. -/
def ComputeRotationMatrix {F : Type} [Field F] (fns : MathFns F)
    (rotation_axis : Vector3 F) (angle_in_radians : F) : Matrix4 F :=
  let rotation_matrix : Matrix4 F := 1
  let rotation3 := angleAxisMatrix fns angle_in_radians rotation_axis
  setBlock3 rotation_matrix rotation3

/-- Source `ComputeScalingMatrix`: the identity with entries (0,0), (1,1), (2,2)
overwritten by `scale`. -/
def ComputeScalingMatrix {F : Type} [Field F] (scale : F) : Matrix4 F :=
  let scale_matrix : Matrix4 F := 1
  let scale_matrix := setCoeff scale_matrix 0 0 scale
  let scale_matrix := setCoeff scale_matrix 1 1 scale
  let scale_matrix := setCoeff scale_matrix 2 2 scale
  scale_matrix

/-- Source `ConvertDegreesToRadians`: `angle_in_degrees * 3.1416f / 180.0f`. -/
def ConvertDegreesToRadians {F : Type} [Field F] (angle_in_degrees : F) : F :=
  angle_in_degrees * 3.1416 / 180.0

/-! ## OpenGL vocabulary -/

/-- The type `GLuint` of OpenGL object names; `0` is the name of no object. -/
abbrev GLuint := Nat

/-- The OpenGL release calls, recorded in the order they are issued. -/
inductive GlCall where
  | glDeleteVertexArrays (id : GLuint)
  | glDeleteBuffers (id : GLuint)
  | glDeleteTextures (id : GLuint)
  deriving DecidableEq, Repr

/-- The type `Eigen::MatrixXf`: a dynamically sized matrix with its coefficients
stored column by column. -/
structure MatrixXf (F : Type) where
  rows : Nat
  cols : Nat
  data : List F

/-! ## model.cc -/

/-- The data members of class `Model`. -/
structure Model (F : Type) where
  orientation_ : Vector3 F
  position_ : Vector3 F
  vertices_ : MatrixXf F
  indices_ : List GLuint
  vertex_buffer_object_id_ : GLuint
  vertex_array_object_id_ : GLuint
  element_buffer_object_id_ : GLuint
  texture_object_id_ : GLuint

/-- Source `Model::Model(orientation, position, vertices)`: `indices_` is not
assigned and keeps its default-constructed (empty) value. -/
def Model.Model3 {F : Type} (orientation position : Vector3 F) (vertices : MatrixXf F) :
    Model F where
  orientation_ := orientation
  position_ := position
  vertices_ := vertices
  indices_ := []
  vertex_buffer_object_id_ := 0
  vertex_array_object_id_ := 0
  element_buffer_object_id_ := 0
  texture_object_id_ := 0

/-- Source `Model::Model(orientation, position, vertices, indices)`. -/
def Model.Model4 {F : Type} (orientation position : Vector3 F) (vertices : MatrixXf F)
    (indices : List GLuint) : Model F where
  orientation_ := orientation
  position_ := position
  vertices_ := vertices
  indices_ := indices
  vertex_buffer_object_id_ := 0
  vertex_array_object_id_ := 0
  element_buffer_object_id_ := 0
  texture_object_id_ := 0

/-- Source `Model::~Model`: the OpenGL calls the destructor issues, in order. -/
def Model.destructor {F : Type} (m : Model F) : List GlCall :=
  (if m.vertex_array_object_id_ ≠ 0 then
      [GlCall.glDeleteVertexArrays m.vertex_array_object_id_] else []) ++
  (if m.vertex_buffer_object_id_ ≠ 0 then
      [GlCall.glDeleteBuffers m.vertex_buffer_object_id_] else []) ++
  (if m.element_buffer_object_id_ ≠ 0 then
      [GlCall.glDeleteBuffers m.element_buffer_object_id_] else [])

/-- Source `Model::ComputeModelMatrix`. -/
def Model.ComputeModelMatrix {F : Type} [LinearOrderedField F] (fns : MathFns F)
    (m : Model F) : Matrix4 F :=
  let angle_in_radians := norm fns m.orientation_
  let rotation := ComputeRotationMatrix fns (normalized fns m.orientation_) angle_in_radians
  let translation := ComputeTranslationMatrix m.position_
  let model_matrix := translation * rotation
  model_matrix

/-- Source `Model::set_orientation`. -/
def Model.set_orientation {F : Type} (m : Model F) (orientation : Vector3 F) : Model F :=
  { m with orientation_ := orientation }

/-- Source `Model::set_position`. -/
def Model.set_position {F : Type} (m : Model F) (position : Vector3 F) : Model F :=
  { m with position_ := position }

/-- Source `Model::set_texture`. -/
def Model.set_texture {F : Type} (m : Model F) (texture_id : GLuint) : Model F :=
  { m with texture_object_id_ := texture_id }

/-- Source `Model::orientation`. -/
def Model.orientation {F : Type} (m : Model F) : Vector3 F := m.orientation_

/-- Source `Model::position`. -/
def Model.position {F : Type} (m : Model F) : Vector3 F := m.position_

/-- Source `Model::vertices`. -/
def Model.vertices {F : Type} (m : Model F) : MatrixXf F := m.vertices_

/-- Source `Model::indices`. -/
def Model.indices {F : Type} (m : Model F) : List GLuint := m.indices_

/-- Source `Model::vertex_buffer_object_id`. -/
def Model.vertex_buffer_object_id {F : Type} (m : Model F) : GLuint :=
  m.vertex_buffer_object_id_

/-- Source `Model::vertex_array_object_id`. -/
def Model.vertex_array_object_id {F : Type} (m : Model F) : GLuint :=
  m.vertex_array_object_id_

/-- Source `Model::element_buffer_object_id`. -/
def Model.element_buffer_object_id {F : Type} (m : Model F) : GLuint :=
  m.element_buffer_object_id_

/-- A model in the state an upload leaves it in on a fresh OpenGL context: vertex
array `1`, vertex buffer `1`, element buffer `2`, and the texture `7` attached. -/
def uploadedExample : Model ℚ where
  orientation_ := ![1, 1, -1]
  position_ := ![1, 0, 0]
  vertices_ := ⟨5, 1, [0, 0, 0, 0, 0]⟩
  indices_ := [0, 0, 0]
  vertex_buffer_object_id_ := 1
  vertex_array_object_id_ := 1
  element_buffer_object_id_ := 2
  texture_object_id_ := 7

/-! ## The OpenGL server: object names -/

/-- The name carried by a release call. -/
def GlCall.name : GlCall → GLuint
  | GlCall.glDeleteVertexArrays id => id
  | GlCall.glDeleteBuffers id => id
  | GlCall.glDeleteTextures id => id

/-- The names of the OpenGL objects that exist. Vertex arrays, buffers and
textures live in three separate name spaces, as in OpenGL. -/
structure GlState where
  vertex_arrays : List GLuint
  buffers : List GLuint
  textures : List GLuint
  deriving DecidableEq, Repr

/-- The choice of names made by an OpenGL implementation in `glGenVertexArrays`,
`glGenBuffers` and `glGenTextures`, given the objects that exist. -/
structure GlDriver where
  newVertexArray : GlState → GLuint
  newBuffer : GlState → GLuint
  newTexture : GlState → GLuint

/-- OpenGL's contract for `glGen*`: the name returned is not `0` and is not the
name of an existing object of the same kind. -/
def GlDriver.Fresh (d : GlDriver) : Prop :=
  ∀ s : GlState,
    (d.newVertexArray s ≠ 0 ∧ d.newVertexArray s ∉ s.vertex_arrays) ∧
    (d.newBuffer s ≠ 0 ∧ d.newBuffer s ∉ s.buffers) ∧
    (d.newTexture s ≠ 0 ∧ d.newTexture s ∉ s.textures)

/-- One more than the largest name in use. -/
def nextName (used : List GLuint) : GLuint := used.foldr max 0 + 1

/-- An implementation that counts up from `1` in each name space separately. -/
def countingDriver : GlDriver where
  newVertexArray := fun s => nextName s.vertex_arrays
  newBuffer := fun s => nextName s.buffers
  newTexture := fun s => nextName s.textures

/-- An implementation that draws the names of all kinds from one pool. -/
def sharedPoolDriver : GlDriver where
  newVertexArray := fun s => nextName (s.vertex_arrays ++ s.buffers ++ s.textures)
  newBuffer := fun s => nextName (s.vertex_arrays ++ s.buffers ++ s.textures)
  newTexture := fun s => nextName (s.vertex_arrays ++ s.buffers ++ s.textures)

/-- A context in which no object exists yet. -/
def GlState.empty : GlState := ⟨[], [], []⟩

/-- OpenGL `glGenVertexArrays(1, &id)`. -/
def glGenVertexArrays (d : GlDriver) (s : GlState) : GLuint × GlState :=
  (d.newVertexArray s, { s with vertex_arrays := d.newVertexArray s :: s.vertex_arrays })

/-- OpenGL `glGenBuffers(1, &id)`. -/
def glGenBuffers (d : GlDriver) (s : GlState) : GLuint × GlState :=
  (d.newBuffer s, { s with buffers := d.newBuffer s :: s.buffers })

/-- OpenGL `glGenTextures(1, &id)`. -/
def glGenTextures (d : GlDriver) (s : GlState) : GLuint × GlState :=
  (d.newTexture s, { s with textures := d.newTexture s :: s.textures })

/-- The effect of one release call: the object of that kind and name is gone. -/
def GlState.release (s : GlState) : GlCall → GlState
  | GlCall.glDeleteVertexArrays id =>
      { s with vertex_arrays := s.vertex_arrays.filter (fun n => n ≠ id) }
  | GlCall.glDeleteBuffers id => { s with buffers := s.buffers.filter (fun n => n ≠ id) }
  | GlCall.glDeleteTextures id => { s with textures := s.textures.filter (fun n => n ≠ id) }

/-- The effect of a sequence of release calls. -/
def GlState.releaseAll (s : GlState) (calls : List GlCall) : GlState :=
  calls.foldl GlState.release s

/-- Source `Model::SetVerticesIntoGpu`: the three `glGen*` calls store a new vertex
array name, a new buffer name for the vertices and a new buffer name for the
indices into the handles, whatever the handles held before. The calls in between
(`glBindVertexArray`, `glBindBuffer`, `glBufferData`, `glVertexAttribPointer`,
`glEnableVertexAttribArray`) create and release no object name and leave the
state of names untouched. -/
def Model.SetVerticesIntoGpu {F : Type} (d : GlDriver) (m : Model F) (gl : GlState) :
    Model F × GlState :=
  let r1 := glGenVertexArrays d gl
  let m := { m with vertex_array_object_id_ := r1.1 }
  let r2 := glGenBuffers d r1.2
  let m := { m with vertex_buffer_object_id_ := r2.1 }
  let r3 := glGenBuffers d r2.2
  let m := { m with element_buffer_object_id_ := r3.1 }
  (m, r3.2)

/-- Eigen `m.block(0, 0, 3, 3)` read: the upper-left 3x3 block of a 4x4 matrix. -/
def topLeftBlock3 {F : Type} (m : Matrix4 F) : Matrix3 F :=
  !![m 0 0, m 0 1, m 0 2;
     m 1 0, m 1 1, m 1 2;
     m 2 0, m 2 1, m 2 2]

/-! ## draw_scene.cc: rendering -/

/-- The class `wvu::ShaderProgram` as far as rendering uses it: the name of the
linked program. -/
structure ShaderProgram where
  shader_program_id : GLuint

/-- The type `GLFWwindow`; the code only tests pointers to it against null. -/
structure GLFWwindow where
  handle : Nat

/-- The three `mat4` uniforms of the vertex shader. -/
inductive Uniform where
  | model
  | view
  | projection
  deriving DecidableEq, Repr

/-- The OpenGL calls issued while rendering, recorded in the order they are
issued. The `glGetUniformLocation` queries are part of `glUniformMatrix4fv`. -/
inductive RenderCall (F : Type) where
  | glClearColor (r g b a : F)
  | glEnableDepthTest
  | glClear
  | glUseProgram (id : GLuint)
  | glPolygonMode
  | glBindVertexArray (id : GLuint)
  | glBindTexture (id : GLuint)
  | glUniformMatrix4fv (uniform : Uniform) (value : Matrix4 F)
  | glDrawElements (count : Nat)

/-- Source `Model::Draw`. -/
def Model.Draw {F : Type} [LinearOrderedField F] (fns : MathFns F) (m : Model F)
    (_shader_program : ShaderProgram) (projection view : Matrix4 F) : List (RenderCall F) :=
  let model := m.ComputeModelMatrix fns
  [RenderCall.glBindVertexArray m.vertex_array_object_id_,
   RenderCall.glBindTexture m.texture_object_id_,
   RenderCall.glUniformMatrix4fv Uniform.model model,
   RenderCall.glUniformMatrix4fv Uniform.view view,
   RenderCall.glUniformMatrix4fv Uniform.projection projection,
   RenderCall.glDrawElements m.indices_.length,
   RenderCall.glBindTexture 0]

/-- Source `ClearTheFrameBuffer`. -/
def ClearTheFrameBuffer {F : Type} [Field F] : List (RenderCall F) :=
  [RenderCall.glClearColor 0 0 0 1, RenderCall.glEnableDepthTest, RenderCall.glClear]

/-- The orientation update in the body of the drawing loop of `RenderScene`, for a
reading `time` of `glfwGetTime()`. -/
def RenderScene.newOrientation {F : Type} [LinearOrderedField F] (fns : MathFns F)
    (time : F) (m : Model F) : Vector3 F :=
  let current_orientation := m.orientation
  let rotation_speed : F := 50.0
  let current_angle := ConvertDegreesToRadians (rotation_speed * time)
  let normalized_orientation := normalized fns current_orientation
  let new_orientation : Vector3 F := fun k => current_angle * normalized_orientation k
  new_orientation

/-- The drawing loop of `RenderScene` from index `i` on: each model is drawn as it
is, then its orientation is replaced; `glfwGetTime i` is the reading of the clock
in iteration `i`. -/
def RenderScene.loop {F : Type} [LinearOrderedField F] (fns : MathFns F)
    (glfwGetTime : Nat → F) (shader_program : ShaderProgram) (projection view : Matrix4 F) :
    Nat → List (Model F) → List (Model F) × List (RenderCall F)
  | _, [] => ([], [])
  | i, m :: rest =>
    let calls := m.Draw fns shader_program projection view
    let m1 := m.set_orientation (RenderScene.newOrientation fns (glfwGetTime i) m)
    let r := RenderScene.loop fns glfwGetTime shader_program projection view (i + 1) rest
    (m1 :: r.1, calls ++ r.2)

/-- Source `RenderScene`. A null pointer is `none`; the models the pointers of the
list lead to are taken to be different objects, as `ConstructModels` creates them.
The result is the list after the pass and the OpenGL calls issued. -/
def RenderScene {F : Type} [LinearOrderedField F] (fns : MathFns F)
    (glfwGetTime : Nat → F) (shader_program : ShaderProgram) (projection view : Matrix4 F)
    (models_to_draw : Option (List (Option (Model F)))) (window : Option GLFWwindow) :
    Option (List (Option (Model F))) × List (RenderCall F) :=
  match models_to_draw, window with
  | none, _ => (models_to_draw, [])
  | _, none => (models_to_draw, [])
  | some models, some _ =>
    if models.any Option.isNone then (models_to_draw, [])
    else
      let r := RenderScene.loop fns glfwGetTime shader_program projection view 0
        (models.filterMap id)
      (some (r.1.map some),
        ClearTheFrameBuffer ++
          [RenderCall.glUseProgram shader_program.shader_program_id,
           RenderCall.glPolygonMode] ++
          r.2 ++ [RenderCall.glBindVertexArray 0])

/-- The frame loop of `main`, for as many passes as there are clocks: pass `k`
runs `RenderScene` with the readings `clocks[k]`. -/
def renderPasses {F : Type} [LinearOrderedField F] (fns : MathFns F)
    (shader_program : ShaderProgram) (projection view : Matrix4 F)
    (window : Option GLFWwindow) :
    List (Nat → F) → Option (List (Option (Model F))) → Option (List (Option (Model F)))
  | [], models_to_draw => models_to_draw
  | clock :: later, models_to_draw =>
    renderPasses fns shader_program projection view window later
      (RenderScene fns clock shader_program projection view models_to_draw window).1

/-! ## draw_scene.cc: scene construction -/

/-- The type `Eigen::Vector2f`. -/
abbrev Vector2 (F : Type) := Fin 2 → F

/-- Modelled from the spec: the type `wvu::Face` of `model_loader.h`, which is not
among the sources; a triangular face with three vertex indices. -/
structure Face where
  vertex_indices : Fin 3 → GLuint

/-- The four output vectors of `wvu::LoadObjModel` after a call that returned
`true`. -/
structure ObjModel (F : Type) where
  model_vertices : List (Vector3 F)
  model_texels : List (Vector2 F)
  model_normals : List (Vector3 F)
  model_faces : List Face

/-- Source `LoadTexture`, on the state of names: `glGenTextures` yields the name that
is returned. Decoding the image and the texture parameter calls create and release
no object name. -/
def LoadTexture (d : GlDriver) (gl : GlState) : GLuint × GlState :=
  glGenTextures d gl

/-- The vertex-interleaving loop of `ConstructModels` from column `col` on, the
remaining entries of `model_vertices` being `model_vertices[col]`,
`model_vertices[col + 1]`, ...: column `col` of the 5-row matrix receives the
position and `model_texels[col]`. The result is the column-major data of the
columns filled, or `none` when `model_texels[col]` is read past the end of the
vector, which is undefined behaviour. -/
def ConstructModels.fillVertices {F : Type} (model_texels : List (Vector2 F)) :
    Nat → List (Vector3 F) → Option (List F)
  | _, [] => some []
  | col, v :: rest =>
    match model_texels[col]? with
    | none => none
    | some t =>
      (ConstructModels.fillVertices model_texels (col + 1) rest).map
        (fun data => [v 0, v 1, v 2, t 0, t 1] ++ data)

/-- The index loop of `ConstructModels`: the three vertex indices of every face,
in order. -/
def ConstructModels.fillIndices (model_faces : List Face) : List GLuint :=
  (model_faces.map (fun face =>
    [face.vertex_indices 0, face.vertex_indices 1, face.vertex_indices 2])).flatten

/-- The matrix `vertices_pyramid` of `ConstructModels`. -/
def vertices_pyramid {F : Type} [Field F] : MatrixXf F :=
  ⟨5, 5,
   [-1, -1, 1, 0, 0,
    1, -1, 1, 1, 0,
    1, -1, -1, 0, 0,
    -1, -1, -1, 1, 0,
    0, 1, 0, 0.5, 1]⟩

/-- The vector `indices_pyramid` of `ConstructModels`. -/
def indices_pyramid : List GLuint :=
  [0, 1, 4, 1, 2, 4, 2, 3, 4, 3, 0, 4, 0, 1, 3, 3, 1, 2]

/-- The matrix `vertices_cube` of `ConstructModels`. -/
def vertices_cube {F : Type} [Field F] : MatrixXf F :=
  ⟨5, 8,
   [0, 1, 0, 0, 0,
    0, 0, 0, 0, 1,
    1, 1, 0, 1, 0,
    1, 0, 0, 1, 1,
    1, 1, -1, 0, 0,
    1, 0, -1, 0, 1,
    0, 1, -1, 1, 0,
    0, 0, -1, 1, 1]⟩

/-- The vector `indices_cube` of `ConstructModels`. -/
def indices_cube : List GLuint :=
  [0, 1, 3, 0, 3, 2, 2, 3, 5, 2, 5, 4, 4, 5, 7, 4, 7, 6,
   0, 1, 7, 0, 7, 6, 0, 4, 6, 0, 2, 4, 1, 5, 7, 1, 3, 5]

/-- The last loop of `ConstructModels`: `SetVerticesIntoGpu` on every model of the
list, in order. -/
def ConstructModels.uploadAll {F : Type} (d : GlDriver) :
    List (Model F) → GlState → List (Model F) × GlState
  | [], gl => ([], gl)
  | m :: rest, gl =>
    let r := m.SetVerticesIntoGpu d gl
    let r2 := ConstructModels.uploadAll d rest r.2
    (r.1 :: r2.1, r2.2)

/-- Source `ConstructModels`. `loaded` is the outcome of
`wvu::LoadObjModel(FLAGS_model_filepath, ...)`: `none` when it returned `false`. The
result is the list and the state of names when the function returns, or `none`
when undefined behaviour is reached. -/
def ConstructModels {F : Type} [Field F] (d : GlDriver) (loaded : Option (ObjModel F))
    (models_to_draw : Option (List (Option (Model F)))) (gl : GlState) :
    Option (Option (List (Option (Model F))) × GlState) :=
  match models_to_draw with
  | none => some (none, gl)
  | some models =>
    if models.any Option.isNone then some (some models, gl)
    else
      match loaded with
      | none => some (some models, gl)
      | some obj =>
        match ConstructModels.fillVertices obj.model_texels 0 obj.model_vertices with
        | none => none
        | some data =>
          let vertices : MatrixXf F := ⟨5, obj.model_vertices.length, data⟩
          let indices := ConstructModels.fillIndices obj.model_faces
          let model := Model.Model4 ![1, 1, -1] ![-2, 0, -7.5] vertices indices
          let t1 := LoadTexture d gl
          let model := model.set_texture t1.1
          let models := models ++ [some model]
          let cube := Model.Model4 ![1, 1, -1] ![1, 0, -7.5] vertices_cube indices_cube
          let t2 := LoadTexture d t1.2
          let cube := cube.set_texture t2.1
          let models := models ++ [some cube]
          let pyramid :=
            Model.Model4 ![1, 1, -1] ![-1, 0, -7.5] vertices_pyramid indices_pyramid
          let t3 := LoadTexture d t2.2
          let pyramid := pyramid.set_texture t3.1
          let models := models ++ [some pyramid]
          let r := ConstructModels.uploadAll d (models.filterMap id) t3.2
          some (some (r.1.map some), r.2)

/-! ## draw_scene.cc: main -/

/-- Source `kWindowWidth`. -/
def kWindowWidth : Int := 1280

/-- Source `kWindowHeight`. -/
def kWindowHeight : Int := 800

/-- The value `main` passes as `aspect_ratio` to `ComputePerspectiveProjectionMatrix`:
`static_cast<float>(kWindowWidth / kWindowHeight)`, the quotient of two `int`s
converted to `float`. -/
def main_aspect_ratio {F : Type} [Field F] : F :=
  ((Int.tdiv kWindowWidth kWindowHeight : Int) : F)

/-! ## Facts about the Eigen vocabulary -/

theorem setCoeff_apply {F : Type} (m : Matrix4 F) (i j a b : Fin 4) (x : F) :
    setCoeff m i j x a b = if a = i ∧ b = j then x else m a b := rfl

/-- With angle `0` the rotation is the identity whatever the stored axis is, as
soon as `sin 0 = 0` and `cos 0 = 1`. -/
theorem ComputeRotationMatrix_angle_zero {F : Type} [Field F] (fns : MathFns F)
    (hs : fns.sin 0 = 0) (hc : fns.cos 0 = 1) (a : Vector3 F) :
    ComputeRotationMatrix fns a 0 = 1 := by
  ext i j
  fin_cases i <;> fin_cases j <;>
    (simp [ComputeRotationMatrix, setBlock3, angleAxisMatrix, hs, hc] <;> rfl)

/-- The translation matrix written out. -/
theorem ComputeTranslationMatrix_eq {F : Type} [Field F] (v : Vector3 F) :
    ComputeTranslationMatrix v =
      !![1, 0, 0, v 0; 0, 1, 0, v 1; 0, 0, 1, v 2; 0, 0, 0, 1] := by
  ext i j
  fin_cases i <;> fin_cases j <;>
    (simp [ComputeTranslationMatrix, Matrix.updateColumn_apply, homogeneous] <;> rfl)

/-- The scaling matrix written out. -/
theorem ComputeScalingMatrix_eq {F : Type} [Field F] (s : F) :
    ComputeScalingMatrix s =
      !![s, 0, 0, 0; 0, s, 0, 0; 0, 0, s, 0; 0, 0, 0, 1] := by
  ext i j
  fin_cases i <;> fin_cases j <;>
    (simp [ComputeScalingMatrix, setCoeff_apply] <;> rfl)

/-- The rotation matrix written out, entry by entry. -/
theorem ComputeRotationMatrix_eq {F : Type} [Field F] (fns : MathFns F) (a : Vector3 F)
    (t : F) :
    ComputeRotationMatrix fns a t =
      !![(1 - fns.cos t) * a 0 * a 0 + fns.cos t,
           (1 - fns.cos t) * a 0 * a 1 - fns.sin t * a 2,
           (1 - fns.cos t) * a 0 * a 2 + fns.sin t * a 1, 0;
         (1 - fns.cos t) * a 0 * a 1 + fns.sin t * a 2,
           (1 - fns.cos t) * a 1 * a 1 + fns.cos t,
           (1 - fns.cos t) * a 1 * a 2 - fns.sin t * a 0, 0;
         (1 - fns.cos t) * a 0 * a 2 - fns.sin t * a 1,
           (1 - fns.cos t) * a 1 * a 2 + fns.sin t * a 0,
           (1 - fns.cos t) * a 2 * a 2 + fns.cos t, 0;
         0, 0, 0, 1] := by
  ext i j
  fin_cases i <;> fin_cases j <;>
    simp [ComputeRotationMatrix, setBlock3, angleAxisMatrix]

/-! ## The model matrix -/

/-- C1: the model matrix is the translation by the position multiplied on the
right by the rotation whose axis is the normalised orientation and whose angle
is the norm of the orientation; applied to a vector, the rotation acts first
and the translation second. -/
theorem C1_model_matrix_is_translation_times_rotation {F : Type} [LinearOrderedField F]
    (fns : MathFns F) (o p : Vector3 F) (vertices : MatrixXf F) (indices : List GLuint) :
    (Model.Model4 o p vertices indices).ComputeModelMatrix fns =
        ComputeTranslationMatrix p *
          ComputeRotationMatrix fns (normalized fns o) (norm fns o) ∧
    (Model.Model3 o p vertices).ComputeModelMatrix fns =
        ComputeTranslationMatrix p *
          ComputeRotationMatrix fns (normalized fns o) (norm fns o) ∧
    (∀ m : Model F, m.ComputeModelMatrix fns =
        ComputeTranslationMatrix m.position *
          ComputeRotationMatrix fns (normalized fns m.orientation) (norm fns m.orientation)) ∧
    (∀ (m : Model F) (x : Vector4 F), (m.ComputeModelMatrix fns).mulVec x =
        (ComputeTranslationMatrix m.position).mulVec
          ((ComputeRotationMatrix fns (normalized fns m.orientation)
            (norm fns m.orientation)).mulVec x)) := by
  refine ⟨rfl, rfl, fun _ => rfl, fun m x => ?_⟩
  simp [Model.ComputeModelMatrix, Model.position, Model.orientation, Matrix.mulVec_mulVec]

/-- C2: over the reals, a model whose orientation is the zero vector and whose
position is `(x, y, z)` has as model matrix the pure translation by `(x, y, z)`:
the translation matrix itself, whose rotation block is the identity. -/
theorem C2_zero_orientation_gives_pure_translation (m : Model ℝ) (x y z : ℝ)
    (ho : m.orientation = ![0, 0, 0]) (hp : m.position = ![x, y, z]) :
    m.ComputeModelMatrix ⟨Real.sin, Real.cos, Real.sqrt⟩ =
        ComputeTranslationMatrix ![x, y, z] ∧
    m.ComputeModelMatrix ⟨Real.sin, Real.cos, Real.sqrt⟩ =
        !![1, 0, 0, x; 0, 1, 0, y; 0, 0, 1, z; 0, 0, 0, 1] := by
  have hn : norm ⟨Real.sin, Real.cos, Real.sqrt⟩ (![0, 0, 0] : Vector3 ℝ) = 0 := by
    simp [norm, squaredNorm]
  have hm : m.ComputeModelMatrix ⟨Real.sin, Real.cos, Real.sqrt⟩ =
      ComputeTranslationMatrix ![x, y, z] := by
    simp only [Model.orientation, Model.position] at ho hp
    simp only [Model.ComputeModelMatrix, ho, hp, hn]
    rw [ComputeRotationMatrix_angle_zero _ Real.sin_zero Real.cos_zero, mul_one]
  refine ⟨hm, ?_⟩
  rw [hm, ComputeTranslationMatrix_eq]
  simp

/-- Witness of C2 at the position `(1, 2, 3)`. -/
theorem C2_zero_orientation_gives_pure_translation_witness :
    (Model.Model3 (![0, 0, 0] : Vector3 ℝ) ![1, 2, 3] ⟨0, 0, []⟩).ComputeModelMatrix
        ⟨Real.sin, Real.cos, Real.sqrt⟩ =
      !![1, 0, 0, 1; 0, 1, 0, 2; 0, 0, 1, 3; 0, 0, 0, 1] :=
  (C2_zero_orientation_gives_pure_translation
    (Model.Model3 (![0, 0, 0] : Vector3 ℝ) ![1, 2, 3] ⟨0, 0, []⟩) 1 2 3 rfl rfl).2

/-! ## Rotations -/

/-- For a unit-length stored axis, the rotation by `t` followed by the rotation by
`-t` is the identity, for any `sin` and `cos` with `sin² + cos² = 1`, `sin` odd
and `cos` even. -/
theorem ComputeRotationMatrix_mul_neg {F : Type} [Field F] (fns : MathFns F) (a : Vector3 F)
    (t : F) (hsc : fns.sin t * fns.sin t + fns.cos t * fns.cos t = 1)
    (hs : fns.sin (-t) = -fns.sin t) (hc : fns.cos (-t) = fns.cos t)
    (ha : squaredNorm a = 1) :
    ComputeRotationMatrix fns a t * ComputeRotationMatrix fns a (-t) = 1 := by
  unfold squaredNorm at ha
  rw [ComputeRotationMatrix_eq, ComputeRotationMatrix_eq, hs, hc]
  generalize fns.sin t = s at hsc
  generalize fns.cos t = c at hsc
  generalize a 0 = x at ha
  generalize a 1 = y at ha
  generalize a 2 = z at ha
  ext i j
  fin_cases i <;> fin_cases j <;>
    simp [Matrix.mul_apply, Fin.sum_univ_four]
  · linear_combination (1 - x * x) * hsc + (s * s + x * x * (1 - c) * (1 - c)) * ha
  · linear_combination (-(x * y)) * hsc + (x * y * (1 - c) * (1 - c)) * ha
  · linear_combination (-(x * z)) * hsc + (x * z * (1 - c) * (1 - c)) * ha
  · linear_combination (-(x * y)) * hsc + (x * y * (1 - c) * (1 - c)) * ha
  · linear_combination (1 - y * y) * hsc + (s * s + y * y * (1 - c) * (1 - c)) * ha
  · linear_combination (-(y * z)) * hsc + (y * z * (1 - c) * (1 - c)) * ha
  · linear_combination (-(x * z)) * hsc + (x * z * (1 - c) * (1 - c)) * ha
  · linear_combination (-(y * z)) * hsc + (y * z * (1 - c) * (1 - c)) * ha
  · linear_combination (1 - z * z) * hsc + (s * s + z * z * (1 - c) * (1 - c)) * ha

/-- C3, the claim refuted: for the non-zero axis `(2, 0, 0)` and the angle `π`,
the rotation by `π` multiplied by the rotation by `-π` is not the identity (its
entry (0,0) is 49). -/
theorem C3_nonunit_axis_counterexample :
    (![2, 0, 0] : Vector3 ℝ) ≠ 0 ∧
    ComputeRotationMatrix ⟨Real.sin, Real.cos, Real.sqrt⟩ ![2, 0, 0] Real.pi *
        ComputeRotationMatrix ⟨Real.sin, Real.cos, Real.sqrt⟩ ![2, 0, 0] (-Real.pi) ≠ 1 := by
  constructor
  · intro h
    have h0 := congrFun h 0
    simp at h0
  · intro h
    have h00 := congrFun (congrFun h 0) 0
    rw [ComputeRotationMatrix_eq, ComputeRotationMatrix_eq] at h00
    simp [Matrix.mul_apply, Fin.sum_univ_four] at h00
    norm_num at h00

/-- C3, as amended: over the reals, for every unit-length axis `a` and every angle
`t`, the rotation by `t` multiplied by the rotation by `-t` is exactly the 4x4
identity. -/
theorem C3_rotation_times_inverse_is_identity (a : Vector3 ℝ) (t : ℝ)
    (ha : squaredNorm a = 1) :
    ComputeRotationMatrix ⟨Real.sin, Real.cos, Real.sqrt⟩ a t *
        ComputeRotationMatrix ⟨Real.sin, Real.cos, Real.sqrt⟩ a (-t) = 1 :=
  ComputeRotationMatrix_mul_neg _ a t
    (by simpa [sq] using Real.sin_sq_add_cos_sq t) (Real.sin_neg t) (Real.cos_neg t) ha

/-- Witness of C3 at the axis `(0, 1, 0)` and the angle `π`. -/
theorem C3_rotation_times_inverse_is_identity_witness :
    squaredNorm (![0, 1, 0] : Vector3 ℝ) = 1 ∧
    ComputeRotationMatrix ⟨Real.sin, Real.cos, Real.sqrt⟩ ![0, 1, 0] Real.pi *
        ComputeRotationMatrix ⟨Real.sin, Real.cos, Real.sqrt⟩ ![0, 1, 0] (-Real.pi) = 1 :=
  ⟨by simp [squaredNorm],
   C3_rotation_times_inverse_is_identity ![0, 1, 0] Real.pi (by simp [squaredNorm])⟩

/-- C4: over the reals, for every unit-length axis `a` the rotation about `a` by
the angle `0` is exactly the 4x4 identity. -/
theorem C4_rotation_by_zero_is_identity (a : Vector3 ℝ) (_ha : squaredNorm a = 1) :
    ComputeRotationMatrix ⟨Real.sin, Real.cos, Real.sqrt⟩ a 0 = 1 :=
  ComputeRotationMatrix_angle_zero _ Real.sin_zero Real.cos_zero a

/-- Witness of C4 at the axis `(1, 0, 0)`. -/
theorem C4_rotation_by_zero_is_identity_witness :
    squaredNorm (![1, 0, 0] : Vector3 ℝ) = 1 ∧
    ComputeRotationMatrix ⟨Real.sin, Real.cos, Real.sqrt⟩ ![1, 0, 0] 0 = 1 :=
  ⟨by simp [squaredNorm], C4_rotation_by_zero_is_identity ![1, 0, 0] (by simp [squaredNorm])⟩

/-! ## Degrees to radians -/

/-- C5, the claim refuted: over the reals, `ConvertDegreesToRadians 180` is
`3.1416`, which is not `180 * π / 180 = π`. -/
theorem C5_degrees_to_radians_counterexample :
    ConvertDegreesToRadians (180 : ℝ) ≠ 180 * Real.pi / 180 := by
  intro h
  have hlt := Real.pi_lt_d4
  norm_num [ConvertDegreesToRadians] at h
  rw [← h] at hlt
  norm_num at hlt

/-- C5, as amended: over the reals, for every angle `d` in degrees
`ConvertDegreesToRadians d` is `d * 3.1416 / 180`, with the code's decimal constant
in the place of `π`; it differs from `d * π / 180` by at most `|d| * 1e-5 / 180`
and agrees with it exactly when `d = 0`. -/
theorem C5_degrees_to_radians_uses_rounded_constant (d : ℝ) :
    ConvertDegreesToRadians d = d * 3.1416 / 180 ∧
    |ConvertDegreesToRadians d - d * Real.pi / 180| ≤ |d| * 0.00001 / 180 ∧
    (ConvertDegreesToRadians d = d * Real.pi / 180 ↔ d = 0) := by
  have hlt := Real.pi_lt_d4
  have hgt := Real.pi_gt_d6
  have hdef : ConvertDegreesToRadians d = d * 3.1416 / 180 := by
    norm_num [ConvertDegreesToRadians]
  refine ⟨hdef, ?_, ?_⟩
  · have hsub : ConvertDegreesToRadians d - d * Real.pi / 180 =
        d * ((3.1416 - Real.pi) / 180) := by
      rw [hdef]; ring
    have hnonneg : (0 : ℝ) ≤ (3.1416 - Real.pi) / 180 := by
      apply div_nonneg <;> linarith
    rw [hsub, abs_mul, abs_of_nonneg hnonneg, mul_div_assoc]
    apply mul_le_mul_of_nonneg_left _ (abs_nonneg d)
    apply div_le_div_of_nonneg_right _ (by norm_num)
    norm_num
    linarith
  · rw [hdef]
    constructor
    · intro h
      have hne : (3.1416 : ℝ) - Real.pi ≠ 0 := by linarith
      have hz : d * (3.1416 - Real.pi) = 0 := by linarith
      rcases mul_eq_zero.mp hz with h0 | h0
      · exact h0
      · exact absurd h0 hne
    · intro h
      simp [h]

/-- C6: over the reals, `ConvertDegreesToRadians 0` is exactly `0`, and
`ConvertDegreesToRadians 180` is exactly the code's constant `3.1416`, which is
within `1e-5` of `π`. -/
theorem C6_degrees_to_radians_at_0_and_180 :
    ConvertDegreesToRadians (0 : ℝ) = 0 ∧
    ConvertDegreesToRadians (180 : ℝ) = 3.1416 ∧
    |ConvertDegreesToRadians (180 : ℝ) - Real.pi| < 0.00001 := by
  have hlt := Real.pi_lt_d4
  have hgt := Real.pi_gt_d6
  have h180 : ConvertDegreesToRadians (180 : ℝ) = 3.1416 := by
    norm_num [ConvertDegreesToRadians]
  refine ⟨by simp [ConvertDegreesToRadians], h180, ?_⟩
  rw [h180, abs_lt]
  constructor <;> norm_num <;> linarith

/-! ## Translation and scaling -/

/-- C7: for every vector `v` the translation matrix is the identity with its
fourth column replaced by `(v.x, v.y, v.z, 1)`; it sends the homogeneous origin
to `(v.x, v.y, v.z, 1)` and every homogeneous point `(p, 1)` to `(p + v, 1)`. -/
theorem C7_translation_matrix {F : Type} [Field F] (v : Vector3 F) :
    ComputeTranslationMatrix v =
        !![1, 0, 0, v 0; 0, 1, 0, v 1; 0, 0, 1, v 2; 0, 0, 0, 1] ∧
    ComputeTranslationMatrix v = Matrix.updateColumn 1 3 ![v 0, v 1, v 2, 1] ∧
    (ComputeTranslationMatrix v).mulVec ![0, 0, 0, 1] = ![v 0, v 1, v 2, 1] ∧
    (∀ p : Vector3 F,
      (ComputeTranslationMatrix v).mulVec (homogeneous p) = homogeneous (p + v)) := by
  refine ⟨ComputeTranslationMatrix_eq v, rfl, ?_, ?_⟩
  · rw [ComputeTranslationMatrix_eq]
    ext i
    fin_cases i <;> simp [Matrix.mulVec, Matrix.dotProduct, Fin.sum_univ_four]
  · intro p
    rw [ComputeTranslationMatrix_eq]
    ext i
    fin_cases i <;>
      simp [Matrix.mulVec, Matrix.dotProduct, Fin.sum_univ_four, homogeneous]

/-- C8: for every scale factor `s` the scaling matrix is the identity with its
first three diagonal entries set to `s` and the fourth left at `1`; it sends every
homogeneous point `(p.x, p.y, p.z, 1)` to `(s * p.x, s * p.y, s * p.z, 1)`. -/
theorem C8_scaling_matrix {F : Type} [Field F] (s : F) :
    ComputeScalingMatrix s =
        !![s, 0, 0, 0; 0, s, 0, 0; 0, 0, s, 0; 0, 0, 0, 1] ∧
    (∀ p : Vector3 F,
      (ComputeScalingMatrix s).mulVec ![p 0, p 1, p 2, 1] =
        ![s * p 0, s * p 1, s * p 2, 1]) := by
  refine ⟨ComputeScalingMatrix_eq s, fun p => ?_⟩
  rw [ComputeScalingMatrix_eq]
  ext i
  fin_cases i <;> simp [Matrix.mulVec, Matrix.dotProduct, Fin.sum_univ_four]

/-! ## Construction and destruction of a Model -/

/-- C9: immediately after either constructor the vertex array, vertex buffer,
element buffer and texture handles are all `0`, and `orientation()`, `position()`
and `vertices()` return the values passed in; `indices()` returns the indices
passed to the four-argument constructor and is empty after the three-argument
one. -/
theorem C9_constructors_store_arguments_and_zero_handles {F : Type}
    (orientation position : Vector3 F) (vertices : MatrixXf F) (indices : List GLuint) :
    ((Model.Model3 orientation position vertices).vertex_array_object_id = 0 ∧
      (Model.Model3 orientation position vertices).vertex_buffer_object_id = 0 ∧
      (Model.Model3 orientation position vertices).element_buffer_object_id = 0 ∧
      (Model.Model3 orientation position vertices).texture_object_id_ = 0 ∧
      (Model.Model3 orientation position vertices).orientation = orientation ∧
      (Model.Model3 orientation position vertices).position = position ∧
      (Model.Model3 orientation position vertices).vertices = vertices ∧
      (Model.Model3 orientation position vertices).indices = []) ∧
    ((Model.Model4 orientation position vertices indices).vertex_array_object_id = 0 ∧
      (Model.Model4 orientation position vertices indices).vertex_buffer_object_id = 0 ∧
      (Model.Model4 orientation position vertices indices).element_buffer_object_id = 0 ∧
      (Model.Model4 orientation position vertices indices).texture_object_id_ = 0 ∧
      (Model.Model4 orientation position vertices indices).orientation = orientation ∧
      (Model.Model4 orientation position vertices indices).position = position ∧
      (Model.Model4 orientation position vertices indices).vertices = vertices ∧
      (Model.Model4 orientation position vertices indices).indices = indices) :=
  ⟨⟨rfl, rfl, rfl, rfl, rfl, rfl, rfl, rfl⟩, ⟨rfl, rfl, rfl, rfl, rfl, rfl, rfl, rfl⟩⟩

/-- C10, the claim refuted: a model that holds the texture `7` through
`set_texture` is destroyed without any release of that texture, so the texture
is released zero times and not once. -/
theorem C10_texture_not_released_counterexample :
    ((Model.Model3 (![1, 1, -1] : Vector3 ℚ) ![1, 0, 0] ⟨0, 0, []⟩).set_texture
        7).texture_object_id_ = 7 ∧
    List.count (GlCall.glDeleteTextures 7)
      ((Model.Model3 (![1, 1, -1] : Vector3 ℚ) ![1, 0, 0] ⟨0, 0, []⟩).set_texture
        7).destructor = 0 := by
  decide

/-- C10, as amended: destroying a model releases the vertex array, the vertex
buffer and the element buffer whose non-zero handle the model holds, each exactly
once (the two buffer handles being different names), and issues no release of any
texture. -/
theorem C10_destructor_releases_arrays_and_buffers_once {F : Type} (m : Model F) :
    (m.vertex_array_object_id ≠ 0 →
      List.count (GlCall.glDeleteVertexArrays m.vertex_array_object_id) m.destructor = 1) ∧
    (m.vertex_buffer_object_id ≠ 0 →
      m.vertex_buffer_object_id ≠ m.element_buffer_object_id →
      List.count (GlCall.glDeleteBuffers m.vertex_buffer_object_id) m.destructor = 1) ∧
    (m.element_buffer_object_id ≠ 0 →
      m.vertex_buffer_object_id ≠ m.element_buffer_object_id →
      List.count (GlCall.glDeleteBuffers m.element_buffer_object_id) m.destructor = 1) ∧
    (∀ id : GLuint, List.count (GlCall.glDeleteTextures id) m.destructor = 0) := by
  simp only [Model.vertex_array_object_id, Model.vertex_buffer_object_id,
    Model.element_buffer_object_id, Model.destructor]
  refine ⟨fun h => ?_, fun h hne => ?_, fun h hne => ?_, fun id => ?_⟩
  · simp [List.count_cons, List.count_append, h]
    split_ifs <;> simp
  · simp [List.count_cons, List.count_append, h]
    split_ifs <;> simp_all
  · have hne2 := Ne.symm hne
    simp [List.count_cons, List.count_append, h]
    split_ifs <;> simp_all [List.count_cons]
  · simp [List.count_cons, List.count_append]
    split_ifs <;> simp
/-- Witness of C10 on a model holding vertex array `1`, vertex buffer `1`, element
buffer `2` and texture `7`: each of the first three is released once. -/
theorem C10_destructor_releases_arrays_and_buffers_once_witness :
    List.count (GlCall.glDeleteVertexArrays 1) uploadedExample.destructor = 1 ∧
    List.count (GlCall.glDeleteBuffers 1) uploadedExample.destructor = 1 ∧
    List.count (GlCall.glDeleteBuffers 2) uploadedExample.destructor = 1 ∧
    List.count (GlCall.glDeleteTextures 7) uploadedExample.destructor = 0 :=
  ⟨(C10_destructor_releases_arrays_and_buffers_once uploadedExample).1 (by decide),
   (C10_destructor_releases_arrays_and_buffers_once uploadedExample).2.1
     (by decide) (by decide),
   (C10_destructor_releases_arrays_and_buffers_once uploadedExample).2.2.1
     (by decide) (by decide),
   (C10_destructor_releases_arrays_and_buffers_once uploadedExample).2.2.2 7⟩

/-! ## Uploading to the GPU and releasing -/

theorem le_foldr_max (l : List GLuint) (x : GLuint) (hx : x ∈ l) : x ≤ l.foldr max 0 := by
  induction l with
  | nil => simp at hx
  | cons a t ih =>
    simp only [List.foldr_cons]
    rcases List.mem_cons.mp hx with h | h
    · subst h
      exact le_max_left _ _
    · exact le_trans (ih h) (le_max_right _ _)

theorem nextName_not_mem (l : List GLuint) : nextName l ∉ l := by
  intro h
  have := le_foldr_max l _ h
  unfold nextName at this
  exact Nat.not_succ_le_self _ this

theorem nextName_ne_zero (l : List GLuint) : nextName l ≠ 0 := by
  unfold nextName
  exact Nat.succ_ne_zero _

theorem countingDriver_fresh : countingDriver.Fresh := by
  intro s
  exact ⟨⟨nextName_ne_zero _, nextName_not_mem _⟩, ⟨nextName_ne_zero _, nextName_not_mem _⟩,
    ⟨nextName_ne_zero _, nextName_not_mem _⟩⟩

theorem sharedPoolDriver_fresh : sharedPoolDriver.Fresh := by
  intro s
  have h := nextName_not_mem (s.vertex_arrays ++ s.buffers ++ s.textures)
  simp only [List.mem_append, not_or] at h
  exact ⟨⟨nextName_ne_zero _, h.1.1⟩, ⟨nextName_ne_zero _, h.1.2⟩, ⟨nextName_ne_zero _, h.2⟩⟩

theorem filter_ne_of_not_mem (l : List GLuint) (a : GLuint) (h : a ∉ l) :
    l.filter (fun n => n ≠ a) = l := by
  apply List.filter_eq_self.mpr
  intro x hx
  have : x ≠ a := fun e => h (e ▸ hx)
  simpa using this

theorem filter_ne_cons_self (l : List GLuint) (a : GLuint) (h : a ∉ l) :
    (a :: l).filter (fun n => n ≠ a) = l := by
  simp only [List.filter_cons, ne_eq, not_true_eq_false, decide_False]
  exact filter_ne_of_not_mem l a h

/-- C11: the destructor walks the three potential release calls in the fixed
order vertex array, vertex buffer, element buffer and issues exactly those whose
handle is not `0`; it issues no call at all exactly when all three handles are
`0`, which is the case for a model that was constructed and never uploaded. -/
theorem C11_destructor_order_and_guards {F : Type} (m : Model F)
    (orientation position : Vector3 F) (vertices : MatrixXf F) (indices : List GLuint) :
    m.destructor =
      List.filter (fun c => decide (c.name ≠ 0))
        [GlCall.glDeleteVertexArrays m.vertex_array_object_id,
         GlCall.glDeleteBuffers m.vertex_buffer_object_id,
         GlCall.glDeleteBuffers m.element_buffer_object_id] ∧
    List.Sublist m.destructor
        [GlCall.glDeleteVertexArrays m.vertex_array_object_id,
         GlCall.glDeleteBuffers m.vertex_buffer_object_id,
         GlCall.glDeleteBuffers m.element_buffer_object_id] ∧
    (m.destructor = [] ↔
      m.vertex_array_object_id = 0 ∧ m.vertex_buffer_object_id = 0 ∧
        m.element_buffer_object_id = 0) ∧
    (Model.Model3 orientation position vertices).destructor = [] ∧
    (Model.Model4 orientation position vertices indices).destructor = [] := by
  have hfilter : m.destructor =
      List.filter (fun c => decide (c.name ≠ 0))
        [GlCall.glDeleteVertexArrays m.vertex_array_object_id,
         GlCall.glDeleteBuffers m.vertex_buffer_object_id,
         GlCall.glDeleteBuffers m.element_buffer_object_id] := by
    simp only [Model.destructor, Model.vertex_array_object_id, Model.vertex_buffer_object_id,
      Model.element_buffer_object_id, List.filter_cons, List.filter_nil, GlCall.name]
    by_cases h1 : m.vertex_array_object_id_ = 0 <;>
      by_cases h2 : m.vertex_buffer_object_id_ = 0 <;>
      by_cases h3 : m.element_buffer_object_id_ = 0 <;> simp [h1, h2, h3]
  refine ⟨hfilter, ?_, ?_, rfl, rfl⟩
  · rw [hfilter]
    exact List.filter_sublist _
  · simp only [Model.destructor, Model.vertex_array_object_id, Model.vertex_buffer_object_id,
      Model.element_buffer_object_id]
    by_cases h1 : m.vertex_array_object_id_ = 0 <;>
      by_cases h2 : m.vertex_buffer_object_id_ = 0 <;>
      by_cases h3 : m.element_buffer_object_id_ = 0 <;> simp [h1, h2, h3]

/-- C12, the claim refuted: the implementation that counts up from `1` in each
name space hands out fresh non-zero names, yet after one upload of a freshly
constructed model on an empty context the vertex array handle and the vertex
buffer handle are both `1`. -/
theorem C12_handles_not_pairwise_distinct_counterexample :
    countingDriver.Fresh ∧
    ((Model.Model4 (![1, 1, -1] : Vector3 ℚ) ![1, 0, 0] ⟨5, 0, []⟩ []).SetVerticesIntoGpu
        countingDriver GlState.empty).1.vertex_array_object_id = 1 ∧
    ((Model.Model4 (![1, 1, -1] : Vector3 ℚ) ![1, 0, 0] ⟨5, 0, []⟩ []).SetVerticesIntoGpu
        countingDriver GlState.empty).1.vertex_buffer_object_id = 1 ∧
    ((Model.Model4 (![1, 1, -1] : Vector3 ℚ) ![1, 0, 0] ⟨5, 0, []⟩ []).SetVerticesIntoGpu
        countingDriver GlState.empty).1.element_buffer_object_id = 2 :=
  ⟨countingDriver_fresh, by decide, by decide, by decide⟩

/-- One upload, whatever the model held before: the facts shared by the
statements about uploads. -/
theorem SetVerticesIntoGpu_spec {F : Type} (d : GlDriver) (hd : d.Fresh) (m : Model F)
    (gl : GlState) :
    (m.SetVerticesIntoGpu d gl).1.vertex_array_object_id_ ≠ 0 ∧
    (m.SetVerticesIntoGpu d gl).1.vertex_buffer_object_id_ ≠ 0 ∧
    (m.SetVerticesIntoGpu d gl).1.element_buffer_object_id_ ≠ 0 ∧
    (m.SetVerticesIntoGpu d gl).1.vertex_array_object_id_ ∉ gl.vertex_arrays ∧
    (m.SetVerticesIntoGpu d gl).1.vertex_buffer_object_id_ ∉ gl.buffers ∧
    (m.SetVerticesIntoGpu d gl).1.element_buffer_object_id_ ∉ gl.buffers ∧
    (m.SetVerticesIntoGpu d gl).1.vertex_buffer_object_id_ ≠
      (m.SetVerticesIntoGpu d gl).1.element_buffer_object_id_ ∧
    (m.SetVerticesIntoGpu d gl).2 =
      { gl with
        vertex_arrays := (m.SetVerticesIntoGpu d gl).1.vertex_array_object_id_ ::
          gl.vertex_arrays
        buffers := (m.SetVerticesIntoGpu d gl).1.element_buffer_object_id_ ::
          (m.SetVerticesIntoGpu d gl).1.vertex_buffer_object_id_ :: gl.buffers } := by
  have h1 := hd gl
  have h2 := hd (glGenVertexArrays d gl).2
  have h3 := hd (glGenBuffers d (glGenVertexArrays d gl).2).2
  simp only [glGenVertexArrays, glGenBuffers, List.mem_cons, not_or] at h1 h2 h3
  simp only [Model.SetVerticesIntoGpu, glGenVertexArrays, glGenBuffers]
  refine ⟨h1.1.1, h2.2.1.1, h3.2.1.1, h1.1.2, h2.2.1.2, h3.2.1.2.2, ?_, trivial⟩
  exact fun e => h3.2.1.2.1 e.symm

/-- Releasing the three objects of an upload, in the order of the destructor,
undoes the upload on the state of names. -/
theorem releaseAll_after_upload (gl : GlState) (va vb eb : GLuint)
    (hva : va ∉ gl.vertex_arrays) (hvb : vb ∉ gl.buffers) (heb : eb ∉ gl.buffers)
    (hne : vb ≠ eb) :
    GlState.releaseAll { gl with vertex_arrays := va :: gl.vertex_arrays
                                 buffers := eb :: vb :: gl.buffers }
      [GlCall.glDeleteVertexArrays va, GlCall.glDeleteBuffers vb, GlCall.glDeleteBuffers eb]
      = gl := by
  have h1 : (va :: gl.vertex_arrays).filter (fun n => n ≠ va) = gl.vertex_arrays :=
    filter_ne_cons_self _ _ hva
  have h2 : (eb :: vb :: gl.buffers).filter (fun n => n ≠ vb) = eb :: gl.buffers := by
    rw [List.filter_cons_of_pos (by simpa using Ne.symm hne), filter_ne_cons_self _ _ hvb]
  have h3 : (eb :: gl.buffers).filter (fun n => n ≠ eb) = gl.buffers :=
    filter_ne_cons_self _ _ heb
  simp only [GlState.releaseAll, List.foldl_cons, List.foldl_nil, GlState.release, h1, h2, h3]

/-- C12, as amended: for every model, in particular a freshly constructed one, and
every OpenGL implementation that hands out fresh non-zero names, one upload leaves
the three handles non-zero and the two buffer handles different; the vertex array
handle, which names an object of another kind, differs from the buffer handles
when the implementation never gives a buffer the name of an existing vertex
array. Destroying the model afterwards issues exactly one release for each of the
three objects, none twice, and leaves the context as it was before the upload. -/
theorem C12_single_upload_then_destroy {F : Type} (d : GlDriver) (hd : d.Fresh)
    (m : Model F) (gl : GlState) (m1 : Model F) (gl1 : GlState)
    (hup : m.SetVerticesIntoGpu d gl = (m1, gl1)) :
    m1.vertex_array_object_id ≠ 0 ∧ m1.vertex_buffer_object_id ≠ 0 ∧
    m1.element_buffer_object_id ≠ 0 ∧
    m1.vertex_buffer_object_id ≠ m1.element_buffer_object_id ∧
    ((∀ s : GlState, d.newBuffer s ∉ s.vertex_arrays) →
      m1.vertex_array_object_id ≠ m1.vertex_buffer_object_id ∧
      m1.vertex_array_object_id ≠ m1.element_buffer_object_id) ∧
    m1.destructor =
      [GlCall.glDeleteVertexArrays m1.vertex_array_object_id,
       GlCall.glDeleteBuffers m1.vertex_buffer_object_id,
       GlCall.glDeleteBuffers m1.element_buffer_object_id] ∧
    List.count (GlCall.glDeleteVertexArrays m1.vertex_array_object_id) m1.destructor = 1 ∧
    List.count (GlCall.glDeleteBuffers m1.vertex_buffer_object_id) m1.destructor = 1 ∧
    List.count (GlCall.glDeleteBuffers m1.element_buffer_object_id) m1.destructor = 1 ∧
    gl1.releaseAll m1.destructor = gl := by
  obtain ⟨h1, h2, h3, h4, h5, h6, h7, h8⟩ := SetVerticesIntoGpu_spec d hd m gl
  rw [hup] at h1 h2 h3 h4 h5 h6 h7 h8
  simp only at h1 h2 h3 h4 h5 h6 h7 h8
  have hdes : m1.destructor =
      [GlCall.glDeleteVertexArrays m1.vertex_array_object_id_,
       GlCall.glDeleteBuffers m1.vertex_buffer_object_id_,
       GlCall.glDeleteBuffers m1.element_buffer_object_id_] := by
    simp [Model.destructor, h1, h2, h3]
  simp only [Model.vertex_array_object_id, Model.vertex_buffer_object_id,
    Model.element_buffer_object_id]
  refine ⟨h1, h2, h3, h7, fun hpool => ?_, hdes, ?_, ?_, ?_, ?_⟩
  · have hb := hpool (glGenVertexArrays d gl).2
    have he := hpool (glGenBuffers d (glGenVertexArrays d gl).2).2
    have hm : m1 = (m.SetVerticesIntoGpu d gl).1 := by rw [hup]
    simp only [glGenVertexArrays, glGenBuffers, List.mem_cons, not_or] at hb he
    rw [hm]
    simp only [Model.SetVerticesIntoGpu, glGenVertexArrays, glGenBuffers]
    exact ⟨fun e => hb.1 e.symm, fun e => he.1 e.symm⟩
  · rw [hdes]
    simp [List.count_cons]
  · rw [hdes]
    simp [List.count_cons, h7]
  · rw [hdes]
    simp [List.count_cons, Ne.symm h7]
  · rw [hdes, h8]
    exact releaseAll_after_upload gl _ _ _ h4 h5 h6 h7

/-- Witness of C12: a freshly constructed model uploaded once, on an empty context,
by the implementation that counts up in each name space and by the one that draws
all names from one pool. -/
theorem C12_single_upload_then_destroy_witness :
    (((Model.Model4 (![1, 1, -1] : Vector3 ℚ) ![1, 0, 0] ⟨5, 0, []⟩ []).SetVerticesIntoGpu
        countingDriver GlState.empty).1.destructor =
      [GlCall.glDeleteVertexArrays 1, GlCall.glDeleteBuffers 1, GlCall.glDeleteBuffers 2]) ∧
    (((Model.Model4 (![1, 1, -1] : Vector3 ℚ) ![1, 0, 0] ⟨5, 0, []⟩ []).SetVerticesIntoGpu
        sharedPoolDriver GlState.empty).1.vertex_array_object_id ≠
      ((Model.Model4 (![1, 1, -1] : Vector3 ℚ) ![1, 0, 0] ⟨5, 0, []⟩ []).SetVerticesIntoGpu
        sharedPoolDriver GlState.empty).1.vertex_buffer_object_id) :=
  ⟨(C12_single_upload_then_destroy countingDriver countingDriver_fresh
      (Model.Model4 (![1, 1, -1] : Vector3 ℚ) ![1, 0, 0] ⟨5, 0, []⟩ []) GlState.empty
      _ _ rfl).2.2.2.2.2.1,
   ((C12_single_upload_then_destroy sharedPoolDriver sharedPoolDriver_fresh
      (Model.Model4 (![1, 1, -1] : Vector3 ℚ) ![1, 0, 0] ⟨5, 0, []⟩ []) GlState.empty
      _ _ rfl).2.2.2.2.1 (fun s => by
        have h := nextName_not_mem (s.vertex_arrays ++ s.buffers ++ s.textures)
        simp only [List.mem_append, not_or] at h
        exact h.1.1)).1⟩

/-- C17: with an OpenGL implementation that hands out fresh non-zero names, a
second upload overwrites the three handles with new names that differ from the
first ones; the destructor then releases the second vertex array, vertex buffer
and element buffer only, and the three objects of the first upload still exist
after the model is destroyed: they are never released. -/
theorem C17_second_upload_orphans_first {F : Type} (d : GlDriver) (hd : d.Fresh)
    (m : Model F) (gl : GlState) (m1 m2 : Model F) (gl1 gl2 : GlState)
    (hup1 : m.SetVerticesIntoGpu d gl = (m1, gl1))
    (hup2 : m1.SetVerticesIntoGpu d gl1 = (m2, gl2)) :
    m2.vertex_array_object_id ≠ m1.vertex_array_object_id ∧
    m2.vertex_buffer_object_id ≠ m1.vertex_buffer_object_id ∧
    m2.vertex_buffer_object_id ≠ m1.element_buffer_object_id ∧
    m2.element_buffer_object_id ≠ m1.vertex_buffer_object_id ∧
    m2.element_buffer_object_id ≠ m1.element_buffer_object_id ∧
    m2.destructor =
      [GlCall.glDeleteVertexArrays m2.vertex_array_object_id,
       GlCall.glDeleteBuffers m2.vertex_buffer_object_id,
       GlCall.glDeleteBuffers m2.element_buffer_object_id] ∧
    GlCall.glDeleteVertexArrays m1.vertex_array_object_id ∉ m2.destructor ∧
    GlCall.glDeleteBuffers m1.vertex_buffer_object_id ∉ m2.destructor ∧
    GlCall.glDeleteBuffers m1.element_buffer_object_id ∉ m2.destructor ∧
    gl2.releaseAll m2.destructor = gl1 ∧
    m1.vertex_array_object_id ∈ (gl2.releaseAll m2.destructor).vertex_arrays ∧
    m1.vertex_buffer_object_id ∈ (gl2.releaseAll m2.destructor).buffers ∧
    m1.element_buffer_object_id ∈ (gl2.releaseAll m2.destructor).buffers := by
  obtain ⟨-, -, -, -, -, -, -, a8⟩ := SetVerticesIntoGpu_spec d hd m gl
  obtain ⟨b1, b2, b3, b4, b5, b6, b7, b8⟩ := SetVerticesIntoGpu_spec d hd m1 gl1
  rw [hup1] at a8
  rw [hup2] at b1 b2 b3 b4 b5 b6 b7 b8
  simp only at a8 b1 b2 b3 b4 b5 b6 b7 b8
  have hva : m1.vertex_array_object_id_ ∈ gl1.vertex_arrays := by rw [a8]; simp
  have hvb : m1.vertex_buffer_object_id_ ∈ gl1.buffers := by rw [a8]; simp
  have heb : m1.element_buffer_object_id_ ∈ gl1.buffers := by rw [a8]; simp
  have hdes : m2.destructor =
      [GlCall.glDeleteVertexArrays m2.vertex_array_object_id_,
       GlCall.glDeleteBuffers m2.vertex_buffer_object_id_,
       GlCall.glDeleteBuffers m2.element_buffer_object_id_] := by
    simp [Model.destructor, b1, b2, b3]
  have n1 : m2.vertex_array_object_id_ ≠ m1.vertex_array_object_id_ :=
    fun e => b4 (e ▸ hva)
  have n2 : m2.vertex_buffer_object_id_ ≠ m1.vertex_buffer_object_id_ :=
    fun e => b5 (e ▸ hvb)
  have n3 : m2.vertex_buffer_object_id_ ≠ m1.element_buffer_object_id_ :=
    fun e => b5 (e ▸ heb)
  have n4 : m2.element_buffer_object_id_ ≠ m1.vertex_buffer_object_id_ :=
    fun e => b6 (e ▸ hvb)
  have n5 : m2.element_buffer_object_id_ ≠ m1.element_buffer_object_id_ :=
    fun e => b6 (e ▸ heb)
  have hrel : gl2.releaseAll m2.destructor = gl1 := by
    rw [hdes, b8]
    exact releaseAll_after_upload gl1 _ _ _ b4 b5 b6 b7
  simp only [Model.vertex_array_object_id, Model.vertex_buffer_object_id,
    Model.element_buffer_object_id]
  refine ⟨n1, n2, n3, n4, n5, hdes, ?_, ?_, ?_, hrel, ?_, ?_, ?_⟩
  · rw [hdes]
    simp [Ne.symm n1]
  · rw [hdes]
    simp [Ne.symm n2, Ne.symm n4]
  · rw [hdes]
    simp [Ne.symm n3, Ne.symm n5]
  · rw [hrel]; exact hva
  · rw [hrel]; exact hvb
  · rw [hrel]; exact heb

/-- Witness of C17: two uploads of a freshly constructed model on an empty context
with names counted up from `1`; the vertex array `1` and the buffers `1` and `2`
of the first upload outlive the model, whose destructor releases the vertex array
`2` and the buffers `3` and `4`. -/
theorem C17_second_upload_orphans_first_witness :
    (((Model.Model4 (![1, 1, -1] : Vector3 ℚ) ![1, 0, 0] ⟨5, 0, []⟩ []).SetVerticesIntoGpu
        countingDriver GlState.empty).1.SetVerticesIntoGpu countingDriver
      ((Model.Model4 (![1, 1, -1] : Vector3 ℚ) ![1, 0, 0] ⟨5, 0, []⟩ []).SetVerticesIntoGpu
        countingDriver GlState.empty).2).1.destructor =
      [GlCall.glDeleteVertexArrays 2, GlCall.glDeleteBuffers 3, GlCall.glDeleteBuffers 4] ∧
    (((Model.Model4 (![1, 1, -1] : Vector3 ℚ) ![1, 0, 0] ⟨5, 0, []⟩ []).SetVerticesIntoGpu
        countingDriver GlState.empty).1.SetVerticesIntoGpu countingDriver
      ((Model.Model4 (![1, 1, -1] : Vector3 ℚ) ![1, 0, 0] ⟨5, 0, []⟩ []).SetVerticesIntoGpu
        countingDriver GlState.empty).2).2.releaseAll
      [GlCall.glDeleteVertexArrays 2, GlCall.glDeleteBuffers 3, GlCall.glDeleteBuffers 4] =
      ⟨[1], [2, 1], []⟩ :=
  ⟨(C17_second_upload_orphans_first countingDriver countingDriver_fresh
      (Model.Model4 (![1, 1, -1] : Vector3 ℚ) ![1, 0, 0] ⟨5, 0, []⟩ []) GlState.empty
      _ _ _ _ rfl rfl).2.2.2.2.2.1,
   by decide⟩

/-! ## The rotation matrix is a proper rotation -/

/-- For a unit-length stored axis and any `sin`, `cos` with `sin² + cos² = 1` at
the angle, the upper-left block of the rotation matrix is orthogonal with
determinant one and fixes the axis. -/
theorem ComputeRotationMatrix_proper {F : Type} [Field F] (fns : MathFns F) (a : Vector3 F)
    (t : F) (hsc : fns.sin t * fns.sin t + fns.cos t * fns.cos t = 1)
    (ha : squaredNorm a = 1) :
    (topLeftBlock3 (ComputeRotationMatrix fns a t)).transpose *
        topLeftBlock3 (ComputeRotationMatrix fns a t) = 1 ∧
    (topLeftBlock3 (ComputeRotationMatrix fns a t)).det = 1 ∧
    (topLeftBlock3 (ComputeRotationMatrix fns a t)).mulVec a = a := by
  unfold squaredNorm at ha
  rw [ComputeRotationMatrix_eq]
  generalize fns.sin t = s at hsc
  generalize fns.cos t = c at hsc
  have hvec : a = ![a 0, a 1, a 2] := by
    ext i
    fin_cases i <;> rfl
  rw [hvec]
  generalize a 0 = x at ha
  generalize a 1 = y at ha
  generalize a 2 = z at ha
  refine ⟨?_, ?_, ?_⟩
  · ext i j
    fin_cases i <;> fin_cases j <;>
      simp only [Matrix.mul_apply, Matrix.transpose_apply, Fin.sum_univ_three] <;>
      simp [topLeftBlock3]
    · linear_combination (1 - x * x) * hsc + (s * s + x * x * (1 - c) * (1 - c)) * ha
    · linear_combination (-(x * y)) * hsc + (x * y * (1 - c) * (1 - c)) * ha
    · linear_combination (-(x * z)) * hsc + (x * z * (1 - c) * (1 - c)) * ha
    · linear_combination (-(x * y)) * hsc + (x * y * (1 - c) * (1 - c)) * ha
    · linear_combination (1 - y * y) * hsc + (s * s + y * y * (1 - c) * (1 - c)) * ha
    · linear_combination (-(y * z)) * hsc + (y * z * (1 - c) * (1 - c)) * ha
    · linear_combination (-(x * z)) * hsc + (x * z * (1 - c) * (1 - c)) * ha
    · linear_combination (-(y * z)) * hsc + (y * z * (1 - c) * (1 - c)) * ha
    · linear_combination (1 - z * z) * hsc + (s * s + z * z * (1 - c) * (1 - c)) * ha
  · simp [topLeftBlock3, Matrix.det_fin_three]
    linear_combination hsc +
      (s * s + (1 - c) * (c * c + s * s * (x * x + y * y + z * z))) * ha
  · ext i
    fin_cases i <;>
      simp [topLeftBlock3, Matrix.mulVec, Matrix.dotProduct, Fin.sum_univ_three]
    · linear_combination ((1 - c) * x) * ha
    · linear_combination ((1 - c) * y) * ha
    · linear_combination ((1 - c) * z) * ha

/-- C18: over the reals, for every unit-length axis `a` and every angle `t` the
rotation matrix is a proper rigid rotation in homogeneous form: its upper-left
3x3 block `R` satisfies `Rᵀ * R = 1` and `det R = 1` and fixes the axis, and its
fourth row and fourth column are `(0, 0, 0, 1)`. -/
theorem C18_rotation_matrix_is_proper_rotation (a : Vector3 ℝ) (t : ℝ)
    (ha : squaredNorm a = 1) :
    (topLeftBlock3 (ComputeRotationMatrix ⟨Real.sin, Real.cos, Real.sqrt⟩ a t)).transpose *
        topLeftBlock3 (ComputeRotationMatrix ⟨Real.sin, Real.cos, Real.sqrt⟩ a t) = 1 ∧
    (topLeftBlock3 (ComputeRotationMatrix ⟨Real.sin, Real.cos, Real.sqrt⟩ a t)).det = 1 ∧
    (topLeftBlock3 (ComputeRotationMatrix ⟨Real.sin, Real.cos, Real.sqrt⟩ a t)).mulVec a
        = a ∧
    ComputeRotationMatrix ⟨Real.sin, Real.cos, Real.sqrt⟩ a t 3 = ![0, 0, 0, 1] ∧
    (fun i => ComputeRotationMatrix ⟨Real.sin, Real.cos, Real.sqrt⟩ a t i 3) =
        ![0, 0, 0, 1] := by
  obtain ⟨h1, h2, h3⟩ := ComputeRotationMatrix_proper ⟨Real.sin, Real.cos, Real.sqrt⟩ a t
    (by simpa [sq] using Real.sin_sq_add_cos_sq t) ha
  refine ⟨h1, h2, h3, ?_, ?_⟩
  · rw [ComputeRotationMatrix_eq]
    ext j
    fin_cases j <;> simp
  · rw [ComputeRotationMatrix_eq]
    ext i
    fin_cases i <;> simp

/-- Witness of C18 at the axis `(0, 0, 1)` and the angle `π / 2`. -/
theorem C18_rotation_matrix_is_proper_rotation_witness :
    squaredNorm (![0, 0, 1] : Vector3 ℝ) = 1 ∧
    (topLeftBlock3 (ComputeRotationMatrix ⟨Real.sin, Real.cos, Real.sqrt⟩ ![0, 0, 1]
        (Real.pi / 2))).det = 1 :=
  ⟨by simp [squaredNorm],
   (C18_rotation_matrix_is_proper_rotation ![0, 0, 1] (Real.pi / 2)
      (by simp [squaredNorm])).2.1⟩

/-! ## One pass of RenderScene -/

/-- The models after the drawing loop: model `j` of the list has its orientation
replaced by the value computed from the clock reading of iteration `i + j`, and
nothing else changed. -/
theorem RenderScene_loop_models {F : Type} [LinearOrderedField F] (fns : MathFns F)
    (glfwGetTime : Nat → F) (shader_program : ShaderProgram) (projection view : Matrix4 F)
    (ms : List (Model F)) (i : Nat) :
    (RenderScene.loop fns glfwGetTime shader_program projection view i ms).1.length =
        ms.length ∧
    ∀ j : Nat, (RenderScene.loop fns glfwGetTime shader_program projection view i ms).1[j]? =
      (ms[j]?).map (fun m =>
        m.set_orientation (RenderScene.newOrientation fns (glfwGetTime (i + j)) m)) := by
  induction ms generalizing i with
  | nil => simp [RenderScene.loop]
  | cons m rest ih =>
    refine ⟨by simp [RenderScene.loop, (ih (i + 1)).1], fun j => ?_⟩
    cases j with
    | zero => simp [RenderScene.loop]
    | succ k =>
      simp only [RenderScene.loop, List.getElem?_cons_succ, (ih (i + 1)).2 k]
      rw [show i + 1 + k = i + (k + 1) by omega]

/-- The OpenGL calls of the drawing loop: the calls of `Draw` on each model as it
was before the pass, in list order. -/
theorem RenderScene_loop_calls {F : Type} [LinearOrderedField F] (fns : MathFns F)
    (glfwGetTime : Nat → F) (shader_program : ShaderProgram) (projection view : Matrix4 F)
    (ms : List (Model F)) (i : Nat) :
    (RenderScene.loop fns glfwGetTime shader_program projection view i ms).2 =
      (ms.map (fun m => m.Draw fns shader_program projection view)).flatten := by
  induction ms generalizing i with
  | nil => simp [RenderScene.loop]
  | cons m rest ih => simp [RenderScene.loop, ih (i + 1)]

theorem any_isNone_map_some {α : Type} (l : List α) :
    (l.map some).any Option.isNone = false := by
  induction l with
  | nil => rfl
  | cons a t ih => simp [ih]

theorem filterMap_id_map_some {α : Type} (l : List α) : (l.map some).filterMap id = l := by
  induction l with
  | nil => rfl
  | cons a t ih => simp [ih]

/-- One pass over a list of non-null models with a non-null window, written out. -/
theorem RenderScene_nonnull {F : Type} [LinearOrderedField F] (fns : MathFns F)
    (glfwGetTime : Nat → F) (shader_program : ShaderProgram) (projection view : Matrix4 F)
    (ms : List (Model F)) (w : GLFWwindow) :
    RenderScene fns glfwGetTime shader_program projection view (some (ms.map some)) (some w) =
      (some ((RenderScene.loop fns glfwGetTime shader_program projection view 0 ms).1.map
          some),
        ClearTheFrameBuffer ++
          [RenderCall.glUseProgram shader_program.shader_program_id,
           RenderCall.glPolygonMode] ++
          (RenderScene.loop fns glfwGetTime shader_program projection view 0 ms).2 ++
          [RenderCall.glBindVertexArray 0]) := by
  simp only [RenderScene, any_isNone_map_some, filterMap_id_map_some]
  rfl

/-- C14: when the list pointer is null, the window is null, or some element of
the list is null, `RenderScene` issues no OpenGL call at all (no clear, no draw)
and leaves the list, hence every model in it, as it was; otherwise it clears,
selects the program, draws every model in list order and replaces the orientation
of every model, model `j` with the clock reading of iteration `j`. -/
theorem C14_render_scene_null_checks {F : Type} [LinearOrderedField F] (fns : MathFns F)
    (glfwGetTime : Nat → F) (shader_program : ShaderProgram) (projection view : Matrix4 F) :
    (∀ window : Option GLFWwindow,
      RenderScene fns glfwGetTime shader_program projection view none window = (none, [])) ∧
    (∀ models : List (Option (Model F)),
      RenderScene fns glfwGetTime shader_program projection view (some models) none =
        (some models, [])) ∧
    (∀ (models : List (Option (Model F))) (window : Option GLFWwindow), none ∈ models →
      RenderScene fns glfwGetTime shader_program projection view (some models) window =
        (some models, [])) ∧
    (∀ (ms : List (Model F)) (w : GLFWwindow),
      (∃ after : List (Model F),
        (RenderScene fns glfwGetTime shader_program projection view (some (ms.map some))
          (some w)).1 = some (after.map some) ∧
        after.length = ms.length ∧
        ∀ j : Nat, after[j]? = (ms[j]?).map (fun m =>
          m.set_orientation (RenderScene.newOrientation fns (glfwGetTime j) m))) ∧
      (RenderScene fns glfwGetTime shader_program projection view (some (ms.map some))
          (some w)).2 =
        ClearTheFrameBuffer ++
          [RenderCall.glUseProgram shader_program.shader_program_id,
           RenderCall.glPolygonMode] ++
          (ms.map (fun m => m.Draw fns shader_program projection view)).flatten ++
          [RenderCall.glBindVertexArray 0]) := by
  refine ⟨fun window => by cases window <;> rfl, fun models => rfl,
    fun models window hmem => ?_, fun ms w => ?_⟩
  · have hany : models.any Option.isNone = true :=
      List.any_eq_true.mpr ⟨none, hmem, rfl⟩
    cases window with
    | none => rfl
    | some w => simp [RenderScene, hany]
  · rw [RenderScene_nonnull]
    refine ⟨⟨_, rfl, ?_, ?_⟩, ?_⟩
    · exact (RenderScene_loop_models fns glfwGetTime shader_program projection view ms 0).1
    · intro j
      simpa using
        (RenderScene_loop_models fns glfwGetTime shader_program projection view ms 0).2 j
    · simp only [RenderScene_loop_calls]

/-- Witness of C14: a list whose second element is null is left as it was and no
OpenGL call is issued, although its first element is a valid model. -/
theorem C14_render_scene_null_checks_witness :
    RenderScene (⟨id, id, id⟩ : MathFns ℚ) (fun _ => 1) ⟨3⟩ 1 1
        (some [some uploadedExample, none]) (some ⟨0⟩) =
      (some [some uploadedExample, none], []) :=
  (C14_render_scene_null_checks (⟨id, id, id⟩ : MathFns ℚ) (fun _ => 1) ⟨3⟩ 1 1).2.2.1
    [some uploadedExample, none] (some ⟨0⟩) (by simp)

/-! ## The orientation update over the reals -/

theorem squaredNorm_pos_of_ne_zero (o : Vector3 ℝ) (ho : o ≠ 0) : 0 < squaredNorm o := by
  unfold squaredNorm
  by_contra hneg
  have h0 := mul_self_nonneg (o 0)
  have h1 := mul_self_nonneg (o 1)
  have h2 := mul_self_nonneg (o 2)
  have e0 : o 0 * o 0 = 0 := by linarith
  have e1 : o 1 * o 1 = 0 := by linarith
  have e2 : o 2 * o 2 = 0 := by linarith
  apply ho
  ext i
  fin_cases i
  · exact mul_self_eq_zero.mp e0
  · exact mul_self_eq_zero.mp e1
  · exact mul_self_eq_zero.mp e2

theorem normalized_of_ne_zero (o : Vector3 ℝ) (ho : o ≠ 0) :
    normalized ⟨Real.sin, Real.cos, Real.sqrt⟩ o =
      fun i => o i / Real.sqrt (squaredNorm o) := by
  have hz := squaredNorm_pos_of_ne_zero o ho
  simp only [normalized]
  rw [if_pos hz]

theorem squaredNorm_normalized (o : Vector3 ℝ) (ho : o ≠ 0) :
    squaredNorm (normalized ⟨Real.sin, Real.cos, Real.sqrt⟩ o) = 1 := by
  have hz := squaredNorm_pos_of_ne_zero o ho
  have hs : Real.sqrt (squaredNorm o) * Real.sqrt (squaredNorm o) = squaredNorm o :=
    Real.mul_self_sqrt hz.le
  have hs0 : Real.sqrt (squaredNorm o) ≠ 0 := (Real.sqrt_pos.mpr hz).ne'
  rw [normalized_of_ne_zero o ho]
  generalize Real.sqrt (squaredNorm o) = r at hs hs0
  unfold squaredNorm at hs ⊢
  simp only
  field_simp
  linarith

theorem squaredNorm_scale (k : ℝ) (n : Vector3 ℝ) :
    squaredNorm (fun i => k * n i) = k * k * squaredNorm n := by
  simp only [squaredNorm]
  ring

theorem norm_scale_unit (k : ℝ) (n : Vector3 ℝ) (hk : 0 < k) (hn : squaredNorm n = 1) :
    norm ⟨Real.sin, Real.cos, Real.sqrt⟩ (fun i => k * n i) = k := by
  simp only [norm, squaredNorm_scale, hn, mul_one]
  exact Real.sqrt_mul_self hk.le

theorem normalized_scale_unit (k : ℝ) (n : Vector3 ℝ) (hk : 0 < k)
    (hn : squaredNorm n = 1) :
    normalized ⟨Real.sin, Real.cos, Real.sqrt⟩ (fun i => k * n i) = n := by
  have hz : 0 < squaredNorm (fun i => k * n i) := by
    rw [squaredNorm_scale, hn]
    positivity
  simp only [normalized]
  rw [if_pos hz, squaredNorm_scale, hn, mul_one, Real.sqrt_mul_self hk.le]
  ext i
  field_simp

theorem ConvertDegreesToRadians_pos (t : ℝ) (ht : 0 < t) :
    0 < ConvertDegreesToRadians (50.0 * t) := by
  unfold ConvertDegreesToRadians
  norm_num
  positivity

/-- C13: over the reals, in one pass of `RenderScene` over non-null models with a
non-null window, a model whose orientation `o` is not zero and whose clock reading
`t` is positive gets an orientation with the direction of `o` (a positive multiple
of `o`, with the same normalised axis) and with norm
`ConvertDegreesToRadians (50 * t)`; its position, vertices and indices are
unchanged. -/
theorem C13_render_pass_sets_angle_keeps_axis (glfwGetTime : Nat → ℝ)
    (shader_program : ShaderProgram) (projection view : Matrix4 ℝ) (ms : List (Model ℝ))
    (w : GLFWwindow) (j : Nat) (m : Model ℝ) (hj : ms[j]? = some m)
    (ho : m.orientation ≠ 0) (ht : 0 < glfwGetTime j) :
    ∃ (after : List (Model ℝ)) (m1 : Model ℝ),
      (RenderScene ⟨Real.sin, Real.cos, Real.sqrt⟩ glfwGetTime shader_program projection view
        (some (ms.map some)) (some w)).1 = some (after.map some) ∧
      after.length = ms.length ∧
      after[j]? = some m1 ∧
      norm ⟨Real.sin, Real.cos, Real.sqrt⟩ m1.orientation =
        ConvertDegreesToRadians (50 * glfwGetTime j) ∧
      normalized ⟨Real.sin, Real.cos, Real.sqrt⟩ m1.orientation =
        normalized ⟨Real.sin, Real.cos, Real.sqrt⟩ m.orientation ∧
      (∃ k : ℝ, 0 < k ∧ m1.orientation = fun i => k * m.orientation i) ∧
      m1.position = m.position ∧ m1.vertices = m.vertices ∧ m1.indices = m.indices := by
  have hloop := RenderScene_loop_models ⟨Real.sin, Real.cos, Real.sqrt⟩ glfwGetTime
    shader_program projection view ms 0
  have h50 : (50.0 : ℝ) = 50 := by norm_num
  have hang : 0 < ConvertDegreesToRadians (50 * glfwGetTime j) := by
    rw [← h50]
    exact ConvertDegreesToRadians_pos _ ht
  have hunit := squaredNorm_normalized m.orientation ho
  have hz := squaredNorm_pos_of_ne_zero m.orientation ho
  refine ⟨_, m.set_orientation
      (RenderScene.newOrientation ⟨Real.sin, Real.cos, Real.sqrt⟩ (glfwGetTime j) m), ?_,
    hloop.1, ?_, ?_, ?_, ?_, rfl, rfl, rfl⟩
  · rw [RenderScene_nonnull]
  · rw [hloop.2 j, hj]
    simp
  · simp only [Model.orientation, Model.set_orientation, RenderScene.newOrientation, h50]
    exact norm_scale_unit _ _ hang hunit
  · simp only [Model.orientation, Model.set_orientation, RenderScene.newOrientation, h50]
    exact normalized_scale_unit _ _ hang hunit
  · refine ⟨ConvertDegreesToRadians (50 * glfwGetTime j) / Real.sqrt (squaredNorm m.orientation),
      div_pos hang (Real.sqrt_pos.mpr hz), ?_⟩
    simp only [Model.orientation, Model.set_orientation, RenderScene.newOrientation, h50]
    rw [show m.orientation_ = m.orientation from rfl, normalized_of_ne_zero m.orientation ho]
    ext i
    simp only [Model.orientation]
    ring

/-- Witness of C13: a single model with orientation `(1, 0, 0)` drawn at clock
reading `2`. -/
theorem C13_render_pass_sets_angle_keeps_axis_witness :
    ∃ (after : List (Model ℝ)) (m1 : Model ℝ),
      (RenderScene ⟨Real.sin, Real.cos, Real.sqrt⟩ (fun _ => 2) ⟨3⟩ 1 1
        (some ([Model.Model3 ![1, 0, 0] ![0, 0, 0] ⟨0, 0, []⟩].map some)) (some ⟨0⟩)).1 =
          some (after.map some) ∧
      after.length = [Model.Model3 (![1, 0, 0] : Vector3 ℝ) ![0, 0, 0] ⟨0, 0, []⟩].length ∧
      after[0]? = some m1 ∧
      norm ⟨Real.sin, Real.cos, Real.sqrt⟩ m1.orientation =
        ConvertDegreesToRadians (50 * (fun _ : Nat => (2 : ℝ)) 0) ∧
      normalized ⟨Real.sin, Real.cos, Real.sqrt⟩ m1.orientation =
        normalized ⟨Real.sin, Real.cos, Real.sqrt⟩
          (Model.Model3 (![1, 0, 0] : Vector3 ℝ) ![0, 0, 0] ⟨0, 0, []⟩).orientation ∧
      (∃ k : ℝ, 0 < k ∧ m1.orientation = fun i => k *
        (Model.Model3 (![1, 0, 0] : Vector3 ℝ) ![0, 0, 0] ⟨0, 0, []⟩).orientation i) ∧
      m1.position = (Model.Model3 (![1, 0, 0] : Vector3 ℝ) ![0, 0, 0] ⟨0, 0, []⟩).position ∧
      m1.vertices = (Model.Model3 (![1, 0, 0] : Vector3 ℝ) ![0, 0, 0] ⟨0, 0, []⟩).vertices ∧
      m1.indices = (Model.Model3 (![1, 0, 0] : Vector3 ℝ) ![0, 0, 0] ⟨0, 0, []⟩).indices :=
  C13_render_pass_sets_angle_keeps_axis (fun _ => 2) ⟨3⟩ 1 1
    [Model.Model3 ![1, 0, 0] ![0, 0, 0] ⟨0, 0, []⟩] ⟨0⟩ 0
    (Model.Model3 ![1, 0, 0] ![0, 0, 0] ⟨0, 0, []⟩) rfl
    (by
      intro h
      have h0 := congrFun h 0
      simp [Model.orientation, Model.Model3] at h0)
    (by norm_num)

/-! ## Losing the rotation axis -/

theorem normalized_zero {F : Type} [LinearOrderedField F] (fns : MathFns F) :
    normalized fns (0 : Vector3 F) = 0 := by
  simp [normalized, squaredNorm]

theorem newOrientation_of_time_zero {F : Type} [LinearOrderedField F] (fns : MathFns F)
    (m : Model F) : RenderScene.newOrientation fns 0 m = 0 := by
  ext k
  simp [RenderScene.newOrientation, ConvertDegreesToRadians]

theorem newOrientation_of_orientation_zero {F : Type} [LinearOrderedField F]
    (fns : MathFns F) (time : F) (m : Model F) (hm : m.orientation = 0) :
    RenderScene.newOrientation fns time m = 0 := by
  ext k
  simp [RenderScene.newOrientation, hm, normalized_zero]

/-- Over the reals a model with zero orientation has the translation by its
position as model matrix. -/
theorem ComputeModelMatrix_of_orientation_zero (m : Model ℝ) (hm : m.orientation = 0) :
    m.ComputeModelMatrix ⟨Real.sin, Real.cos, Real.sqrt⟩ =
      ComputeTranslationMatrix m.position := by
  have hn : norm ⟨Real.sin, Real.cos, Real.sqrt⟩ (0 : Vector3 ℝ) = 0 := by
    simp [norm, squaredNorm]
  simp only [Model.orientation] at hm
  simp only [Model.ComputeModelMatrix, Model.position, hm, hn]
  rw [ComputeRotationMatrix_angle_zero _ Real.sin_zero Real.cos_zero, mul_one]

/-- One pass keeps every orientation at zero and every position as it is. -/
theorem RenderScene_keeps_zero {F : Type} [LinearOrderedField F] (fns : MathFns F)
    (glfwGetTime : Nat → F) (shader_program : ShaderProgram) (projection view : Matrix4 F)
    (ms : List (Model F)) (w : GLFWwindow) (hzero : ∀ m ∈ ms, m.orientation = 0) :
    ∃ after : List (Model F),
      (RenderScene fns glfwGetTime shader_program projection view (some (ms.map some))
        (some w)).1 = some (after.map some) ∧
      after.map Model.position = ms.map Model.position ∧
      ∀ m1 ∈ after, m1.orientation = 0 := by
  have hloop := RenderScene_loop_models fns glfwGetTime shader_program projection view ms 0
  refine ⟨_, by rw [RenderScene_nonnull], ?_, ?_⟩
  · apply List.ext_getElem?
    intro j
    simp only [List.getElem?_map, hloop.2 j, Option.map_map]
    rfl
  · intro m1 hm1
    obtain ⟨j, hj⟩ := List.mem_iff_getElem?.mp hm1
    rw [hloop.2 j] at hj
    cases hmj : ms[j]? with
    | none => simp [hmj] at hj
    | some m =>
      simp only [hmj, Option.map_some', Option.some.injEq] at hj
      have hm := hzero m (List.getElem?_mem hmj)
      rw [← hj]
      simp only [Model.orientation, Model.set_orientation]
      exact newOrientation_of_orientation_zero fns _ m hm

/-- Any number of passes keeps every orientation at zero and every position as it
is. -/
theorem renderPasses_keeps_zero {F : Type} [LinearOrderedField F] (fns : MathFns F)
    (shader_program : ShaderProgram) (projection view : Matrix4 F) (w : GLFWwindow)
    (clocks : List (Nat → F)) (ms : List (Model F))
    (hzero : ∀ m ∈ ms, m.orientation = 0) :
    ∃ after : List (Model F),
      renderPasses fns shader_program projection view (some w) clocks
        (some (ms.map some)) = some (after.map some) ∧
      after.map Model.position = ms.map Model.position ∧
      ∀ m1 ∈ after, m1.orientation = 0 := by
  induction clocks generalizing ms with
  | nil => exact ⟨ms, rfl, rfl, hzero⟩
  | cons clock later ih =>
    obtain ⟨mid, hmid, hpos, hz⟩ :=
      RenderScene_keeps_zero fns clock shader_program projection view ms w hzero
    obtain ⟨after, hafter, hpos2, hz2⟩ := ih mid hz
    refine ⟨after, ?_, hpos2.trans hpos, hz2⟩
    simp only [renderPasses, hmid]
    exact hafter

/-- C19: over the reals, a pass of `RenderScene` in which the clock reads `0` for a
model sets the orientation of that model to the zero vector; and once every
orientation is the zero vector, any number of later passes, at any clock
readings, leaves every orientation equal to the zero vector and every position
as it is, so that the model matrix of every model stays the translation by its
position: the models never rotate again. -/
theorem C19_rotation_axis_lost_at_time_zero (shader_program : ShaderProgram)
    (projection view : Matrix4 ℝ) (w : GLFWwindow) :
    (∀ (glfwGetTime : Nat → ℝ) (ms : List (Model ℝ)) (j : Nat) (m : Model ℝ),
      ms[j]? = some m → glfwGetTime j = 0 →
      ∃ (after : List (Model ℝ)) (m1 : Model ℝ),
        (RenderScene ⟨Real.sin, Real.cos, Real.sqrt⟩ glfwGetTime shader_program projection
          view (some (ms.map some)) (some w)).1 = some (after.map some) ∧
        after[j]? = some m1 ∧ m1.orientation = 0 ∧ m1.position = m.position) ∧
    (∀ (clocks : List (Nat → ℝ)) (ms : List (Model ℝ)),
      (∀ m ∈ ms, m.orientation = 0) →
      ∃ after : List (Model ℝ),
        renderPasses ⟨Real.sin, Real.cos, Real.sqrt⟩ shader_program projection view (some w)
          clocks (some (ms.map some)) = some (after.map some) ∧
        after.map Model.position = ms.map Model.position ∧
        ∀ m1 ∈ after, m1.orientation = 0 ∧
          m1.ComputeModelMatrix ⟨Real.sin, Real.cos, Real.sqrt⟩ =
            ComputeTranslationMatrix m1.position) := by
  constructor
  · intro glfwGetTime ms j m hj ht
    have hloop := RenderScene_loop_models ⟨Real.sin, Real.cos, Real.sqrt⟩ glfwGetTime
      shader_program projection view ms 0
    refine ⟨_, m.set_orientation
        (RenderScene.newOrientation ⟨Real.sin, Real.cos, Real.sqrt⟩ (glfwGetTime j) m),
      by rw [RenderScene_nonnull], ?_, ?_, rfl⟩
    · rw [hloop.2 j, hj]
      simp
    · rw [ht]
      simp only [Model.orientation, Model.set_orientation]
      exact newOrientation_of_time_zero _ m
  · intro clocks ms hzero
    obtain ⟨after, h1, h2, h3⟩ := renderPasses_keeps_zero ⟨Real.sin, Real.cos, Real.sqrt⟩
      shader_program projection view w clocks ms hzero
    exact ⟨after, h1, h2, fun m1 hm1 =>
      ⟨h3 m1 hm1, ComputeModelMatrix_of_orientation_zero m1 (h3 m1 hm1)⟩⟩

/-- Witness of C19: a model with orientation `(1, 1, -1)` drawn at clock reading `0`
has orientation zero afterwards, and a model with orientation zero keeps it over
two passes at clock readings `5` and `7`. -/
theorem C19_rotation_axis_lost_at_time_zero_witness :
    (∃ (after : List (Model ℝ)) (m1 : Model ℝ),
      (RenderScene ⟨Real.sin, Real.cos, Real.sqrt⟩ (fun _ => 0) ⟨3⟩ 1 1
        (some ([Model.Model3 ![1, 1, -1] ![1, 0, 0] ⟨0, 0, []⟩].map some))
        (some ⟨0⟩)).1 = some (after.map some) ∧
      after[0]? = some m1 ∧ m1.orientation = 0 ∧
      m1.position = (Model.Model3 (![1, 1, -1] : Vector3 ℝ) ![1, 0, 0] ⟨0, 0, []⟩).position) ∧
    (∃ after : List (Model ℝ),
      renderPasses ⟨Real.sin, Real.cos, Real.sqrt⟩ ⟨3⟩ 1 1 (some ⟨0⟩)
        [fun _ => 5, fun _ => 7]
        (some ([Model.Model3 0 ![1, 0, 0] ⟨0, 0, []⟩].map some)) = some (after.map some) ∧
      after.map Model.position =
        [Model.Model3 (0 : Vector3 ℝ) ![1, 0, 0] ⟨0, 0, []⟩].map Model.position ∧
      ∀ m1 ∈ after, m1.orientation = 0 ∧
        m1.ComputeModelMatrix ⟨Real.sin, Real.cos, Real.sqrt⟩ =
          ComputeTranslationMatrix m1.position) :=
  ⟨(C19_rotation_axis_lost_at_time_zero ⟨3⟩ 1 1 ⟨0⟩).1 (fun _ => 0)
      [Model.Model3 ![1, 1, -1] ![1, 0, 0] ⟨0, 0, []⟩] 0
      (Model.Model3 ![1, 1, -1] ![1, 0, 0] ⟨0, 0, []⟩) rfl rfl,
   (C19_rotation_axis_lost_at_time_zero ⟨3⟩ 1 1 ⟨0⟩).2 [fun _ => 5, fun _ => 7]
      [Model.Model3 0 ![1, 0, 0] ⟨0, 0, []⟩]
      (by
        intro m hm
        rw [List.mem_singleton] at hm
        rw [hm]
        rfl)⟩

/-! ## Scene construction -/

/-- The interleaving loop started at column `col` stays in bounds when there is no
vertex left or the texels reach to the last column; the data are then the columns
`(position, texel)` in order. -/
theorem fillVertices_in_bounds {F : Type} (ts : List (Vector2 F)) (vs : List (Vector3 F))
    (col : Nat) (h : vs = [] ∨ col + vs.length ≤ ts.length) :
    ConstructModels.fillVertices ts col vs =
      some ((List.zipWith (fun v t => [v 0, v 1, v 2, t 0, t 1]) vs (ts.drop col)).flatten) := by
  induction vs generalizing col with
  | nil => simp [ConstructModels.fillVertices]
  | cons v rest ih =>
    have hlen : col + (rest.length + 1) ≤ ts.length := by
      rcases h with h | h
      · exact absurd h (List.cons_ne_nil _ _)
      · simpa using h
    have hcol : col < ts.length := by omega
    have hget : ts[col]? = some ts[col] := List.getElem?_eq_getElem hcol
    have hdrop : ts.drop col = ts[col] :: ts.drop (col + 1) := List.drop_eq_getElem_cons hcol
    have hrest := ih (col + 1) (Or.inr (by omega))
    simp only [ConstructModels.fillVertices, hget, hrest, hdrop, Option.map_some',
      List.zipWith_cons_cons, List.flatten_cons]

/-- The interleaving loop started at column `col` reads a texel past the end when a
vertex is left and the texels do not reach to the last column. -/
theorem fillVertices_out_of_bounds {F : Type} (ts : List (Vector2 F))
    (vs : List (Vector3 F)) (col : Nat) (hne : vs ≠ [])
    (h : ts.length < col + vs.length) :
    ConstructModels.fillVertices ts col vs = none := by
  induction vs generalizing col with
  | nil => exact absurd rfl hne
  | cons v rest ih =>
    cases hget : ts[col]? with
    | none => simp [ConstructModels.fillVertices, hget]
    | some t =>
      have hcol : col < ts.length := by
        by_contra hge
        rw [List.getElem?_eq_none (by omega)] at hget
        exact Option.noConfusion hget
      have hlen : ts.length < col + (rest.length + 1) := by simpa using h
      have hrest : rest ≠ [] := by
        intro e
        rw [e] at hlen
        simp at hlen
        omega
      have := ih (col + 1) hrest (by omega)
      simp [ConstructModels.fillVertices, hget, this]

theorem fillVertices_isSome_iff {F : Type} (ts : List (Vector2 F)) (vs : List (Vector3 F)) :
    (ConstructModels.fillVertices ts 0 vs).isSome ↔ vs.length ≤ ts.length := by
  constructor
  · intro hsome
    by_contra hlt
    have hne : vs ≠ [] := by
      intro e
      rw [e] at hlt
      simp at hlt
    rw [fillVertices_out_of_bounds ts vs 0 hne (by omega)] at hsome
    exact Bool.noConfusion hsome
  · intro hle
    rw [fillVertices_in_bounds ts vs 0 (Or.inr (by omega))]
    rfl

theorem uploadAll_length {F : Type} (d : GlDriver) (ms : List (Model F)) (gl : GlState) :
    (ConstructModels.uploadAll d ms gl).1.length = ms.length := by
  induction ms generalizing gl with
  | nil => rfl
  | cons m rest ih => simp [ConstructModels.uploadAll, ih]

/-- With non-null list entries and a successful load, `ConstructModels` reaches
undefined behaviour exactly when the interleaving loop does. -/
theorem ConstructModels_loaded {F : Type} [Field F] (d : GlDriver) (obj : ObjModel F)
    (ms : List (Model F)) (gl : GlState) :
    (ConstructModels d (some obj) (some (ms.map some)) gl = none ↔
      ConstructModels.fillVertices obj.model_texels 0 obj.model_vertices = none) ∧
    (∀ data, ConstructModels.fillVertices obj.model_texels 0 obj.model_vertices = some data →
      ∃ (after : List (Model F)) (gl1 : GlState),
        ConstructModels d (some obj) (some (ms.map some)) gl =
          some (some (after.map some), gl1) ∧
        after.length = ms.length + 3) := by
  constructor
  · simp only [ConstructModels, any_isNone_map_some]
    cases hfill : ConstructModels.fillVertices obj.model_texels 0 obj.model_vertices with
    | none => simp
    | some data => simp
  · intro data hfill
    simp only [ConstructModels, any_isNone_map_some, hfill]
    refine ⟨_, _, rfl, ?_⟩
    rw [uploadAll_length]
    have h3 : ∀ a b c : Model F,
        (ms.map some ++ [some a] ++ [some b] ++ [some c]).filterMap id = ms ++ [a, b, c] := by
      intro a b c
      simp [List.filterMap_append, filterMap_id_map_some]
    rw [h3]
    simp

/-- C15, the claim refuted: when the load fails, `ConstructModels` called on an
empty list, as `main` does, returns the list still empty and the context without
any object: neither the cube nor the pyramid is constructed, appended or
uploaded. -/
theorem C15_failed_load_leaves_scene_empty_counterexample :
    ConstructModels (F := ℚ) countingDriver none (some []) GlState.empty =
      some (some [], GlState.empty) :=
  rfl

/-- C15, as amended: when the load fails, `ConstructModels` returns at once with
the list and the context exactly as they were, so no model is constructed,
appended or uploaded, the cube and the pyramid included; the three models are
appended and uploaded when the load succeeds and the interleaving loop stays in
bounds. -/
theorem C15_failed_load_aborts_scene_construction {F : Type} [Field F] (d : GlDriver)
    (gl : GlState) :
    (∀ models_to_draw : Option (List (Option (Model F))),
      ConstructModels d none models_to_draw gl = some (models_to_draw, gl)) ∧
    (∀ (obj : ObjModel F) (ms : List (Model F)),
      obj.model_vertices.length ≤ obj.model_texels.length →
      ∃ (after : List (Model F)) (gl1 : GlState),
        ConstructModels d (some obj) (some (ms.map some)) gl =
          some (some (after.map some), gl1) ∧
        after.length = ms.length + 3) := by
  constructor
  · intro models_to_draw
    cases models_to_draw with
    | none => rfl
    | some models =>
      simp only [ConstructModels]
      split_ifs <;> rfl
  · intro obj ms hle
    have hsome := (fillVertices_isSome_iff obj.model_texels obj.model_vertices).mpr hle
    obtain ⟨data, hdata⟩ := Option.isSome_iff_exists.mp hsome
    exact (ConstructModels_loaded d obj ms gl).2 data hdata

/-- Witness of C15: after a successful load of one vertex with one texel into an
empty list, three models are in the list. -/
theorem C15_failed_load_aborts_scene_construction_witness :
    ∃ (after : List (Model ℚ)) (gl1 : GlState),
      ConstructModels countingDriver
          (some ⟨[![1, 2, 3]], [![4, 5]], [], [⟨![0, 0, 0]⟩]⟩)
          (some (([] : List (Model ℚ)).map some)) GlState.empty =
        some (some (after.map some), gl1) ∧
      after.length = ([] : List (Model ℚ)).length + 3 :=
  (C15_failed_load_aborts_scene_construction countingDriver GlState.empty).2
    ⟨[![1, 2, 3]], [![4, 5]], [], [⟨![0, 0, 0]⟩]⟩ [] (by decide)

/-- C16: the value `main` passes as aspect ratio is the quotient of the two `int`
constants, which is `1`, and not the ratio `1280 / 800 = 1.6` of the window
dimensions. -/
theorem C16_aspect_ratio_is_truncated_to_one :
    (main_aspect_ratio : ℚ) = 1 ∧
    (main_aspect_ratio : ℚ) ≠ 1.6 ∧
    (kWindowWidth : ℚ) / (kWindowHeight : ℚ) = 1.6 := by
  have hq : Int.tdiv kWindowWidth kWindowHeight = 1 := by decide
  refine ⟨?_, ?_, ?_⟩
  · simp [main_aspect_ratio, hq]
  · simp only [main_aspect_ratio, hq]
    norm_num
  · norm_num [kWindowWidth, kWindowHeight]

/-- C20: the interleaving loop of `ConstructModels` reads `model_texels[col]` for
every column below the number of vertex positions: it completes exactly when there
are at least as many texels as positions, and then column `col` holds position
`col` followed by texel `col`; after the null checks and a successful load,
`ConstructModels` reaches the out-of-range read exactly when there are fewer
texels than positions, as for one position and no texel. -/
theorem C20_texel_read_is_unchecked {F : Type} [Field F] (d : GlDriver) (gl : GlState)
    (ms : List (Model F)) (obj : ObjModel F) :
    ((ConstructModels.fillVertices obj.model_texels 0 obj.model_vertices).isSome ↔
      obj.model_vertices.length ≤ obj.model_texels.length) ∧
    (ConstructModels.fillVertices obj.model_texels 0 obj.model_vertices ≠ none →
      ConstructModels.fillVertices obj.model_texels 0 obj.model_vertices =
        some ((List.zipWith (fun v t => [v 0, v 1, v 2, t 0, t 1]) obj.model_vertices
          obj.model_texels).flatten)) ∧
    (ConstructModels d (some obj) (some (ms.map some)) gl = none ↔
      obj.model_texels.length < obj.model_vertices.length) ∧
    ConstructModels d (some ⟨[![1, 2, 3]], [], [], []⟩) (some (ms.map some)) gl = none := by
  have hiff := fillVertices_isSome_iff obj.model_texels obj.model_vertices
  have hnone : ConstructModels.fillVertices obj.model_texels 0 obj.model_vertices = none ↔
      obj.model_texels.length < obj.model_vertices.length := by
    rw [← not_le, ← hiff]
    cases ConstructModels.fillVertices obj.model_texels 0 obj.model_vertices <;> simp
  refine ⟨hiff, fun hne => ?_, ?_, ?_⟩
  · have hle : obj.model_vertices.length ≤ obj.model_texels.length := by
      by_contra hlt
      exact hne (hnone.mpr (by omega))
    simpa using fillVertices_in_bounds obj.model_texels obj.model_vertices 0
      (Or.inr (by omega))
  · rw [(ConstructModels_loaded d obj ms gl).1, hnone]
  · rw [(ConstructModels_loaded d ⟨[![1, 2, 3]], [], [], []⟩ ms gl).1]
    rfl

/-- Witness of C20: one position and one texel are interleaved into one column. -/
theorem C20_texel_read_is_unchecked_witness :
    ConstructModels.fillVertices [(![4, 5] : Vector2 ℚ)] 0 [![1, 2, 3]] =
      some [1, 2, 3, 4, 5] :=
  (C20_texel_read_is_unchecked countingDriver GlState.empty []
    (⟨[![1, 2, 3]], [![4, 5]], [], []⟩ : ObjModel ℚ)).2.1 (by decide)

end wvu
